import Mathlib

/-!
# BWSN temperature sensor firmware

A shallow embedding of the frame codec (`app_packet.h`, `system.h`), the button
debouncer (`button.h`), the white list (`white_list.h`) and the mode controller
(`main.c`) of the sensor node, followed by the properties established about them.

Conventions of the embedding.

* A byte is a natural number; a buffer is a list of bytes; a pointer that may be
  `NULL` is an `Option`.
* Unsigned machine integers are natural numbers, reduced modulo `2 ^ w` where the
  source stores them in a `w`-bit object; the `int64_t` difference of two time
  stamps is an integer reduced to 64 bits in two's complement.
* The byte order of the host is a parameter of every function that looks at the
  object representation of an integer.
* Calls to the hardware, the LED module and the radio stack are recorded, in order,
  in a trace; log output is left out unless a property is about it.
-/

namespace TempSensor

/-! ## system.h -/

/-- Byte order of the machine the firmware runs on. -/
inductive Host where
  | little
  | big
deriving DecidableEq

/-- Value of the source constant `L_ENDIAN`. -/
def L_ENDIAN : Nat := 0x01

/-- Value of the source constant `B_ENDIAN`. -/
def B_ENDIAN : Nat := 0x00

/-- The `size` low-order bytes of `v`, least significant first. -/
def bytes_le : Nat → Nat → List Nat
  | 0, _ => []
  | size + 1, v => v % 256 :: bytes_le size (v / 256)

/-- Value of a byte string read least significant byte first. -/
def value_le : List Nat → Nat
  | [] => 0
  | b :: bs => b + 256 * value_le bs

/-- Object representation of an unsigned integer of `size` bytes on host `h`. -/
def store_uint (h : Host) (size v : Nat) : List Nat :=
  match h with
  | Host.little => bytes_le size v
  | Host.big => (bytes_le size v).reverse

/-- Value of an unsigned integer whose object representation on host `h` is `bytes`. -/
def load_uint (h : Host) (bytes : List Nat) : Nat :=
  match h with
  | Host.little => value_le bytes
  | Host.big => value_le bytes.reverse

/-- Source function `check_endianness`: the first byte of the `unsigned int` 1. -/
def check_endianness (h : Host) : Nat :=
  let one := store_uint h 4 1
  one.headD 0

/-- One iteration of the loop of `reverse_bytes`: exchange `data[i]` and
`data[size - 1 - i]`. -/
def swap_bytes (size : Nat) (data : List Nat) (i : Nat) : List Nat :=
  let temp := data.getD i 0
  let data1 := data.set i (data.getD (size - 1 - i) 0)
  data1.set (size - 1 - i) temp

/-- Source function `reverse_bytes`: the loop runs for `i = 0 .. size / 2 - 1`. -/
def reverse_bytes (data : List Nat) (size : Nat) : List Nat :=
  (List.range (size / 2)).foldl (swap_bytes size) data

/-! ## app_packet.h -/

/-- Value of the source constant `REG_HEADER`. -/
def REG_HEADER : Nat := 0x0001

/-- Value of the source constant `DEL_HEADER`. -/
def DEL_HEADER : Nat := 0x0002

/-- Value of the source constant `DATA_HEADER`. -/
def DATA_HEADER : Nat := 0x0003

/-- Value of the source constant `HEADER_SIZE`. -/
def HEADER_SIZE : Nat := 2

/-- C library `memcpy(dest, src, n)`: the first `n` bytes of `dest` are replaced by
the first `n` bytes of `src`. -/
def memcpy (dest src : List Nat) (n : Nat) : List Nat :=
  src.take n ++ dest.drop n

/-- The call `memcpy(dest + off, src, n)`. -/
def memcpy_at (dest : List Nat) (off : Nat) (src : List Nat) (n : Nat) : List Nat :=
  dest.take off ++ memcpy (dest.drop off) src n

/-- Source function `form_packet`. The result is the returned status together with
the destination buffer after the call. `header_tag` is a `uint16_t` parameter and
`data_buff_len` a `uint8_t` parameter. -/
def form_packet (h : Host) (dest_buff : Option (List Nat)) (header_tag : Nat)
    (data_buff : Option (List Nat)) (data_buff_len : Nat) : Int × Option (List Nat) :=
  match dest_buff with
  | none => (-1, none)
  | some dest =>
    let header_tag16 := header_tag % 65536
    let len8 := data_buff_len % 256
    let tag_obj := store_uint h 2 header_tag16
    let endianness := check_endianness h
    let tag_obj1 := if endianness = L_ENDIAN then reverse_bytes tag_obj 2 else tag_obj
    let dest1 := memcpy dest tag_obj1 HEADER_SIZE
    let dest2 :=
      match data_buff with
      | some data => memcpy_at dest1 HEADER_SIZE data len8
      | none => dest1
    (0, some dest2)

/-- Outcome of `open_packet`: the returned status and the two output objects after
the call. -/
structure OpenResult where
  ret : Int
  dest_header : Nat
  dest_buff : Option (List Nat)
deriving DecidableEq

/-- Source function `open_packet`. `dest_header` is the previous content of the
output header, `dest_buff` the previous content of the output buffer (or `NULL`),
`packet_len` a `uint8_t` parameter. -/
def open_packet (h : Host) (dest_header : Nat) (dest_buff : Option (List Nat))
    (packet : Option (List Nat)) (packet_len : Nat) : OpenResult :=
  let len8 := packet_len % 256
  match packet with
  | none => { ret := -1, dest_header := dest_header, dest_buff := dest_buff }
  | some pkt =>
    if len8 < HEADER_SIZE then
      { ret := -1, dest_header := dest_header, dest_buff := dest_buff }
    else
      let header_arr := memcpy [0, 0] pkt HEADER_SIZE
      let endianness := check_endianness h
      let header_arr1 :=
        if endianness = L_ENDIAN then reverse_bytes header_arr 2 else header_arr
      let header := load_uint h header_arr1
      if header ≠ REG_HEADER ∧ header ≠ DEL_HEADER ∧ header ≠ DATA_HEADER then
        { ret := -1, dest_header := dest_header, dest_buff := dest_buff }
      else
        let out :=
          match dest_buff with
          | some d =>
            if len8 > HEADER_SIZE then some (memcpy d (pkt.drop HEADER_SIZE) (len8 - HEADER_SIZE))
            else some d
          | none => none
        { ret := 0, dest_header := header, dest_buff := out }

/-- The 16-bit value formed by the first two bytes of a packet, first byte most
significant. -/
def wire_header (packet : List Nat) : Nat :=
  packet.getD 0 0 * 256 + packet.getD 1 0

/-! ## button.h -/

/-- What the debouncer does to the outside world, in order of occurrence. -/
inductive ButtonAction where
  | gpio_intr_disable
  | gpio_intr_enable
  | esp_timer_start_once (timeout_us : Nat)
  | log_measurement_error
  | log_short
  | log_medium
  | log_long
  | on_short_button_press_cb
  | on_medium_button_press_cb
  | on_long_button_press_cb
  | gpio_config (gpio_num : Nat)
  | gpio_deep_sleep_wakeup_enable (gpio_num : Nat)
  | esp_deep_sleep_enable_gpio_wakeup (gpio_pin_mask : Nat)
  | esp_timer_create
  | gpio_install_isr_service
  | gpio_isr_handler_add (gpio_num : Nat)
deriving DecidableEq

/-- Source type `button_cnfg_t` without the pin number. The three periods are
`uint16_t` milliseconds; a callback field is `true` when the pointer is not `NULL`. -/
structure button_cnfg_t where
  short_button_press_period_ms : Nat
  medium_button_press_period_ms : Nat
  long_button_press_period_ms : Nat
  on_short_button_press_cb : Bool
  on_medium_button_press_cb : Bool
  on_long_button_press_cb : Bool
deriving DecidableEq

/-- The globals of `button.h`, the static `prev_gpio_level` of the timer callback,
whether the pin interrupt is enabled, and the actions performed so far. -/
structure ButtonState where
  g_button_cnfg : button_cnfg_t
  g_button_pressed_time : Int
  g_button_released_time : Int
  prev_gpio_level : Int
  intr_enabled : Bool
  trace : List ButtonAction
deriving DecidableEq

/-- Perform one action: append it to the trace. -/
def ButtonState.emit (s : ButtonState) (a : ButtonAction) : ButtonState :=
  { s with trace := s.trace ++ [a] }

/-- Call a handler if its pointer is not `NULL`. -/
def ButtonState.call (s : ButtonState) (registered : Bool) (a : ButtonAction) : ButtonState :=
  if registered then s.emit a else s

/-- Source function `gpio_isr_handler`. -/
def gpio_isr_handler (s : ButtonState) : ButtonState :=
  let s1 := { s with intr_enabled := false }.emit ButtonAction.gpio_intr_disable
  s1.emit (ButtonAction.esp_timer_start_once (10 * 1000))

/-- The value of an `int64_t` object holding the low 64 bits of `x` in two's
complement: `x` reduced modulo `2 ^ 64` into the range from `-2 ^ 63` to
`2 ^ 63 - 1`. -/
def int64_wrap (x : Int) : Int :=
  (x + 2 ^ 63) % 2 ^ 64 - 2 ^ 63

/-- The difference `a - b` of two `int64_t` values as the target computes it. -/
def int64_sub (a b : Int) : Int :=
  int64_wrap (a - b)

/-- The integer `x` is a value of the type `int64_t`. -/
def is_int64 (x : Int) : Prop :=
  -2 ^ 63 ≤ x ∧ x < 2 ^ 63

/-- The properties of rounding to the nearest `double` that the classification of a
press relies on. `fl x` is the `double` nearest to the real number `x`: rounding is
monotone, integers of magnitude at most `2 ^ 53` are representable, and below
`2 ^ 16` a positive value of at least one thousandth is rounded up by at most the
relative error `2 ^ (-53)`. -/
structure IsRounding (fl : ℚ → ℚ) : Prop where
  mono : ∀ x y : ℚ, x ≤ y → fl x ≤ fl y
  exact : ∀ n : ℤ, |n| ≤ 2 ^ 53 → fl (n : ℚ) = (n : ℚ)
  error : ∀ x : ℚ, 1 / 1000 ≤ x → x ≤ 65536 → fl x ≤ x + x / 2 ^ 53

/-- The `double` expression `button_pressed_period/1000.0` of the source: the
`int64_t` period is converted to `double`, then divided. -/
def period_ms (fl : ℚ → ℚ) (button_pressed_period : Int) : ℚ :=
  fl (fl (button_pressed_period : ℚ) / 1000)

/-- Source function `glitching_timer_cb`. `new_gpio_level` is what `gpio_get_level`
returns and `now` what `esp_timer_get_time` returns during this call; `fl` is the
rounding of `double` arithmetic. The period is the `int64_t` difference of the two
time stamps. -/
def glitching_timer_cb (fl : ℚ → ℚ) (new_gpio_level : Int) (now : Int)
    (s : ButtonState) : ButtonState :=
  let s1 := { s with intr_enabled := true }.emit ButtonAction.gpio_intr_enable
  if s1.prev_gpio_level ≠ new_gpio_level then
    let s2 :=
      if new_gpio_level = 1 then
        { s1 with g_button_pressed_time := now }
      else if new_gpio_level = 0 then
        let s3 := { s1 with g_button_released_time := now }
        let button_pressed_period :=
          int64_sub s3.g_button_released_time s3.g_button_pressed_time
        let s4 :=
          if button_pressed_period < 0 then s3.emit ButtonAction.log_measurement_error
          else s3
        let cnfg := s4.g_button_cnfg
        if period_ms fl button_pressed_period < (cnfg.short_button_press_period_ms : ℚ) then
          (s4.emit ButtonAction.log_short).call cnfg.on_short_button_press_cb
            ButtonAction.on_short_button_press_cb
        else if period_ms fl button_pressed_period ≥ (cnfg.short_button_press_period_ms : ℚ) ∧
            period_ms fl button_pressed_period < (cnfg.medium_button_press_period_ms : ℚ) then
          (s4.emit ButtonAction.log_medium).call cnfg.on_medium_button_press_cb
            ButtonAction.on_medium_button_press_cb
        else if period_ms fl button_pressed_period ≥ (cnfg.medium_button_press_period_ms : ℚ) then
          (s4.emit ButtonAction.log_long).call cnfg.on_long_button_press_cb
            ButtonAction.on_long_button_press_cb
        else s4
      else s1
    { s2 with prev_gpio_level := new_gpio_level }
  else s1

/-- The configuration that `app_main` passes to `button_init`. -/
def app_button_cnfg : button_cnfg_t :=
  { short_button_press_period_ms := 1000
    medium_button_press_period_ms := 5000
    long_button_press_period_ms := 10000
    on_short_button_press_cb := true
    on_medium_button_press_cb := true
    on_long_button_press_cb := true }

/-- The three press buckets. -/
inductive Bucket where
  | short
  | medium
  | long
deriving DecidableEq

/-- The actions of a classified release: the log line of the bucket, then the call
of its handler when one is registered. -/
def Bucket.actions (cnfg : button_cnfg_t) : Bucket → List ButtonAction
  | Bucket.short =>
    ButtonAction.log_short ::
      (if cnfg.on_short_button_press_cb then [ButtonAction.on_short_button_press_cb] else [])
  | Bucket.medium =>
    ButtonAction.log_medium ::
      (if cnfg.on_medium_button_press_cb then [ButtonAction.on_medium_button_press_cb] else [])
  | Bucket.long =>
    ButtonAction.log_long ::
      (if cnfg.on_long_button_press_cb then [ButtonAction.on_long_button_press_cb] else [])

/-! ## white_list.h -/

/-- ESP-IDF status `ESP_OK` (header `esp_err.h` of the SDK). -/
def ESP_OK : Int := 0

/-- ESP-IDF status `ESP_FAIL` (header `esp_err.h` of the SDK). -/
def ESP_FAIL : Int := -1

/-- NimBLE type `ble_addr_t`: an address type and six address bytes. -/
structure ble_addr_t where
  type : Nat
  val : List Nat
deriving DecidableEq

/-- Source type `device_data_t`. -/
structure device_data_t where
  device_addr : ble_addr_t
  addr_is_empty : Bool
deriving DecidableEq

/-- The globals of `white_list.h`. `white_list_size` is the `const uint8_t` capacity
(1 in the source), `white_list` the array of that many entries. -/
structure WhiteList where
  wl_is_initialised : Bool
  white_list_size : Nat
  white_list_len : Nat
  white_list : List device_data_t
deriving DecidableEq

/-- The value read when an index lies outside the array. -/
def no_entry : device_data_t :=
  { device_addr := { type := 0, val := [] }, addr_is_empty := true }

/-- The array element `white_list[i]`. -/
def WhiteList.entry (s : WhiteList) (i : Nat) : device_data_t :=
  s.white_list.getD i no_entry

/-- The globals as the source initialises them: one empty entry. -/
def boot_white_list : WhiteList :=
  { wl_is_initialised := false
    white_list_size := 1
    white_list_len := 0
    white_list := [{ device_addr := { type := 0, val := [0, 0, 0, 0, 0, 0] }, addr_is_empty := true }] }

/-- C library `memcmp(a, b, n)`: zero when the first `n` bytes agree, else the
difference of the first pair of bytes that differ. -/
def memcmp : List Nat → List Nat → Nat → Int
  | _, _, 0 => 0
  | a, b, n + 1 =>
    if a.headD 0 = b.headD 0 then memcmp a.tail b.tail n
    else (a.headD 0 : Int) - (b.headD 0 : Int)

/-- Source function `addrs_are_equal`. -/
def addrs_are_equal (addr1 addr2 : ble_addr_t) : Bool :=
  if addr1.type = addr2.type then
    if memcmp addr1.val addr2.val 6 = 0 then true else false
  else false

/-- Source function `get_white_list_len`; `cnt` is a `uint8_t`. -/
def get_white_list_len (s : WhiteList) : Nat :=
  (List.range s.white_list_size).foldl
    (fun cnt i => if !(s.entry i).addr_is_empty then (cnt + 1) % 256 else cnt) 0

/-- Source function `init_white_list`. -/
def init_white_list (s : WhiteList) : Int × WhiteList :=
  if s.wl_is_initialised then (ESP_FAIL, s)
  else
    let s1 := { s with white_list_len := get_white_list_len s }
    (ESP_OK, { s1 with wl_is_initialised := true })

/-- Source function `deinit_white_list`. -/
def deinit_white_list (s : WhiteList) : Int × WhiteList :=
  if !s.wl_is_initialised then (ESP_FAIL, s)
  else
    let s1 := { s with white_list_len := 0 }
    (ESP_OK, { s1 with wl_is_initialised := false })

/-- The loop of `push_to_white_list`, from index `i` with `fuel` iterations left. -/
def push_loop (addr : ble_addr_t) (s : WhiteList) : Nat → Nat → Int × WhiteList
  | 0, _ => (ESP_FAIL, s)
  | fuel + 1, i =>
    if (s.entry i).addr_is_empty then
      let s1 := { s with white_list := s.white_list.set i { s.entry i with device_addr := addr } }
      let s2 := { s1 with white_list := s1.white_list.set i { s1.entry i with addr_is_empty := false } }
      (ESP_OK, { s2 with white_list_len := (s2.white_list_len + 1) % 256 })
    else push_loop addr s fuel (i + 1)

/-- Source function `push_to_white_list`. -/
def push_to_white_list (addr : ble_addr_t) (s : WhiteList) : Int × WhiteList :=
  if !s.wl_is_initialised then (ESP_FAIL, s)
  else if s.white_list_len = s.white_list_size then (ESP_FAIL, s)
  else push_loop addr s s.white_list_size 0

/-- The loop of `remove_from_white_list_by_addr`, from index `i` with `fuel`
iterations left. -/
def remove_loop (addr : ble_addr_t) (s : WhiteList) : Nat → Nat → Int × WhiteList
  | 0, _ => (ESP_FAIL, s)
  | fuel + 1, i =>
    if !(s.entry i).addr_is_empty && addrs_are_equal (s.entry i).device_addr addr then
      let s1 := { s with white_list := s.white_list.set i { s.entry i with addr_is_empty := true } }
      (ESP_OK, { s1 with white_list_len := (s1.white_list_len + 255) % 256 })
    else remove_loop addr s fuel (i + 1)

/-- Source function `remove_from_white_list_by_addr`. -/
def remove_from_white_list_by_addr (addr : ble_addr_t) (s : WhiteList) : Int × WhiteList :=
  if !s.wl_is_initialised then (ESP_FAIL, s)
  else if s.white_list_len = 0 then (ESP_FAIL, s)
  else remove_loop addr s s.white_list_size 0

/-- The loop of `white_list_contains_addr`. -/
def contains_loop (addr : ble_addr_t) (s : WhiteList) : Nat → Nat → Bool
  | 0, _ => false
  | fuel + 1, i =>
    if !(s.entry i).addr_is_empty && addrs_are_equal (s.entry i).device_addr addr then true
    else contains_loop addr s fuel (i + 1)

/-- Conversion of an `int` to `bool` at a `return` of a function returning `bool`. -/
def int_to_bool (v : Int) : Bool :=
  decide (v ≠ 0)

/-- Source function `white_list_contains_addr`. The first `return` of the source
returns the status `ESP_FAIL` from a function whose result type is `bool`. -/
def white_list_contains_addr (addr : ble_addr_t) (s : WhiteList) : Bool :=
  if !s.wl_is_initialised then int_to_bool ESP_FAIL
  else if s.white_list_len = 0 then false
  else contains_loop addr s s.white_list_size 0

/-- Source function `white_list_is_empty`. -/
def white_list_is_empty (s : WhiteList) : Bool :=
  decide (s.white_list_len = 0)

/-- Source function `get_white_list_addr`; `out` is the previous content of `*addr`. -/
def get_white_list_addr (out : ble_addr_t) (s : WhiteList) : Int × ble_addr_t :=
  if !s.wl_is_initialised then (ESP_FAIL, out)
  else if s.white_list_len = 0 then (ESP_FAIL, out)
  else (ESP_OK, (s.entry 0).device_addr)

/-- Two addresses have the same address type and the same six address bytes. -/
def same_addr (a b : ble_addr_t) : Prop :=
  a.type = b.type ∧ ∀ i, i < 6 → a.val.getD i 0 = b.val.getD i 0

/-- Slot `i` of the array is occupied. -/
def WhiteList.occupied (s : WhiteList) (i : Nat) : Prop :=
  i < s.white_list_size ∧ (s.entry i).addr_is_empty = false

/-- Number of entries of the array whose `addr_is_empty` flag is false. -/
def WhiteList.occupied_count (s : WhiteList) : Nat :=
  (s.white_list.filter (fun e => !e.addr_is_empty)).length

/-- The array has `white_list_size` entries, the capacity fits `uint8_t`, and
`white_list_len` is the number of occupied entries. A successful `init_white_list`
establishes this and every later call keeps it, so the initialised lists the
program can be in are the consistent ones. -/
structure WhiteList.Consistent (s : WhiteList) : Prop where
  size_eq : s.white_list.length = s.white_list_size
  size_lt : s.white_list_size < 256
  len_eq : s.white_list_len = s.occupied_count

/-- A call of one of the two mutating operations of the white list. -/
inductive WlCall where
  | push (addr : ble_addr_t)
  | remove (addr : ble_addr_t)

/-- State after one call, whatever its status. -/
def WlCall.run (c : WlCall) (s : WhiteList) : WhiteList :=
  match c with
  | WlCall.push addr => (push_to_white_list addr s).2
  | WlCall.remove addr => (remove_from_white_list_by_addr addr s).2

/-- State after a sequence of calls, first call first. -/
def run_calls (calls : List WlCall) (s : WhiteList) : WhiteList :=
  calls.foldl (fun st c => c.run st) s

/-- The device resumes from deep sleep: the ordinary globals are initialised again,
the array in retained memory keeps its content. -/
def resume (s : WhiteList) : WhiteList :=
  { s with wl_is_initialised := false, white_list_len := 0 }

/-! ## main.c -/

/-- Source type `g_device_mode_t`. -/
inductive g_device_mode_t where
  | UNSPECIFIED_MODE
  | REGISTRATION_MODE
  | DELETION_MODE
deriving DecidableEq

/-- NimBLE connectable modes of advertising (`adv_params.conn_mode`). -/
inductive ble_gap_conn_mode where
  | BLE_GAP_CONN_MODE_NON
  | BLE_GAP_CONN_MODE_DIR
  | BLE_GAP_CONN_MODE_UND
deriving DecidableEq

/-- NimBLE discoverable modes of advertising (`adv_params.disc_mode`). -/
inductive ble_gap_disc_mode where
  | BLE_GAP_DISC_MODE_NON
  | BLE_GAP_DISC_MODE_LTD
  | BLE_GAP_DISC_MODE_GEN
deriving DecidableEq

/-- The fields of the NimBLE type `ble_gap_adv_params` that the source sets after
clearing the structure, the channel map apart. -/
structure ble_gap_adv_params where
  conn_mode : ble_gap_conn_mode
  disc_mode : ble_gap_disc_mode
  itvl_min : Nat
  itvl_max : Nat
  high_duty_cycle : Nat
deriving DecidableEq

/-- The application part of the NimBLE type `ble_hs_adv_fields`: the 16-bit service
identifiers and the `mfg_data_len` bytes of manufacturer data. -/
structure ble_hs_adv_fields where
  uuids16 : List Nat
  mfg_data : List Nat
deriving DecidableEq

/-- The two addresses of the NimBLE type `ble_gap_conn_desc` that the source reads. -/
structure ble_gap_conn_desc where
  our_id_addr : ble_addr_t
  peer_id_addr : ble_addr_t
deriving DecidableEq

/-- Value of the source constant `DEEP_SLEEP_CYCLE_TIME`, in microseconds. -/
def DEEP_SLEEP_CYCLE_TIME : Nat := 5 * 1000000

/-- NimBLE constant `BLE_HS_FOREVER`: the largest `int32_t`. -/
def BLE_HS_FOREVER : Int := 2147483647

/-- NimBLE constant `BLE_ERR_REM_USER_CONN_TERM`. -/
def BLE_ERR_REM_USER_CONN_TERM : Nat := 0x13

/-- The calls that `main.c` makes to the LED module, the radio stack and the power
management, in order of occurrence. -/
inductive DeviceAction where
  | led_turn_on
  | led_turn_off
  | led_start_blink (blink_on_itv blink_off_itv : Nat)
  | ble_gap_adv_set_fields (adv_fields : ble_hs_adv_fields)
  | ble_gap_adv_start (own_addr_type : Nat) (direct_addr : Option ble_addr_t)
      (duration_ms : Int) (adv_params : ble_gap_adv_params)
  | ble_gap_adv_stop
  | ble_gap_terminate (conn_handle : Nat) (hci_reason : Nat)
  | esp_sleep_enable_timer_wakeup (time_in_us : Nat)
  | esp_deep_sleep_start
deriving DecidableEq

/-- The globals that the handlers of `main.c` read and write: the mode, the address
type, the white list, and the calls made so far. -/
structure Device where
  g_device_mode : g_device_mode_t
  g_ble_addr_type : Nat
  wl : WhiteList
  trace : List DeviceAction
deriving DecidableEq

/-- Make one call: append it to the trace. -/
def Device.emit (d : Device) (a : DeviceAction) : Device :=
  { d with trace := d.trace ++ [a] }

/-- The event passed to `ble_gap_event`, by `event->type`; `other` stands for every
type handled by the `default` branch. -/
inductive GapEvent where
  | BLE_GAP_EVENT_ADV_COMPLETE
  | BLE_GAP_EVENT_CONNECT (status : Int) (conn_handle : Nat)
  | BLE_GAP_EVENT_DISCONNECT (reason : Int)
  | other
deriving DecidableEq

/-- Source function `ble_gap_event`. `conn_desc` is what `ble_gap_conn_find` stores for
the connection of the event. The result is the returned value and the state after
the call. The log lines, with the loop that prints the white list after a connect,
read the state and are left out. -/
def ble_gap_event (conn_desc : ble_gap_conn_desc) (event : GapEvent) (d : Device) :
    Int × Device :=
  match event with
  | GapEvent.BLE_GAP_EVENT_ADV_COMPLETE =>
    if d.g_device_mode = g_device_mode_t.REGISTRATION_MODE ∨
        d.g_device_mode = g_device_mode_t.DELETION_MODE then (0, d)
    else
      let d1 := d.emit DeviceAction.led_turn_off
      let d2 :=
        if !white_list_is_empty d1.wl then
          d1.emit (DeviceAction.esp_sleep_enable_timer_wakeup DEEP_SLEEP_CYCLE_TIME)
        else d1
      (0, d2.emit DeviceAction.esp_deep_sleep_start)
  | GapEvent.BLE_GAP_EVENT_CONNECT status conn_handle =>
    if status = 0 then
      let d1 := d.emit DeviceAction.ble_gap_adv_stop
      let d2 :=
        if d1.g_device_mode = g_device_mode_t.REGISTRATION_MODE then
          let d3 := { d1 with wl := (push_to_white_list conn_desc.peer_id_addr d1.wl).2 }
          d3.emit (DeviceAction.led_start_blink 100 100)
        else if d1.g_device_mode = g_device_mode_t.DELETION_MODE then
          let r := remove_from_white_list_by_addr conn_desc.peer_id_addr d1.wl
          let deleted := if r.1 = ESP_OK then true else false
          let d3 := { d1 with wl := r.2 }
          if deleted then d3.emit (DeviceAction.led_start_blink 700 700) else d3
        else d1
      (0, d2.emit (DeviceAction.ble_gap_terminate conn_handle BLE_ERR_REM_USER_CONN_TERM))
    else (0, d)
  | GapEvent.BLE_GAP_EVENT_DISCONNECT _ => (0, d)
  | GapEvent.other => (0, d)

/-- Source function `on_medium_button_press`. The local `packet_buff` of
`HEADER_SIZE` bytes is not initialised in the source; `form_packet` overwrites all
of it. -/
def on_medium_button_press (h : Host) (d : Device) : Device :=
  if d.g_device_mode ≠ g_device_mode_t.REGISTRATION_MODE ∧
      d.g_device_mode ≠ g_device_mode_t.DELETION_MODE then
    let d1 := { d with g_device_mode := g_device_mode_t.REGISTRATION_MODE }.emit
      DeviceAction.led_turn_on
    let packet_buff := (form_packet h (some [0, 0]) REG_HEADER none 0).2
    let adv_fields : ble_hs_adv_fields :=
      { uuids16 := [0x1809], mfg_data := (packet_buff.getD []).take HEADER_SIZE }
    let d2 := d1.emit (DeviceAction.ble_gap_adv_set_fields adv_fields)
    let adv_params : ble_gap_adv_params :=
      { conn_mode := ble_gap_conn_mode.BLE_GAP_CONN_MODE_UND
        disc_mode := ble_gap_disc_mode.BLE_GAP_DISC_MODE_GEN
        itvl_min := 0x0010
        itvl_max := 0x0020
        high_duty_cycle := 0 }
    let adv_duration_ms := BLE_HS_FOREVER
    d2.emit (DeviceAction.ble_gap_adv_start d2.g_ble_addr_type none adv_duration_ms adv_params)
  else if d.g_device_mode = g_device_mode_t.REGISTRATION_MODE then
    let d1 :=
      if !white_list_is_empty d.wl then
        d.emit (DeviceAction.esp_sleep_enable_timer_wakeup DEEP_SLEEP_CYCLE_TIME)
      else d
    let d2 := d1.emit DeviceAction.led_turn_off
    let d3 := { d2 with g_device_mode := g_device_mode_t.UNSPECIFIED_MODE }
    d3.emit DeviceAction.esp_deep_sleep_start
  else d

/-- Source function `on_long_button_press`. `wl_addr0` is the content of the local
`wl_addr`, which the source does not initialise, before `get_white_list_addr` is
called; the tag argument of `form_packet` is `(uint8_t)DEL_HEADER`. -/
def on_long_button_press (h : Host) (wl_addr0 : ble_addr_t) (d : Device) : Device :=
  if d.g_device_mode ≠ g_device_mode_t.DELETION_MODE ∧
      d.g_device_mode ≠ g_device_mode_t.REGISTRATION_MODE ∧
      (!white_list_is_empty d.wl) = true then
    let d1 := { d with g_device_mode := g_device_mode_t.DELETION_MODE }.emit
      DeviceAction.led_turn_on
    let packet_buff := (form_packet h (some [0, 0]) (DEL_HEADER % 256) none 0).2
    let adv_fields : ble_hs_adv_fields :=
      { uuids16 := [0x1809], mfg_data := (packet_buff.getD []).take HEADER_SIZE }
    let d2 := d1.emit (DeviceAction.ble_gap_adv_set_fields adv_fields)
    let adv_params : ble_gap_adv_params :=
      { conn_mode := ble_gap_conn_mode.BLE_GAP_CONN_MODE_UND
        disc_mode := ble_gap_disc_mode.BLE_GAP_DISC_MODE_NON
        itvl_min := 0x10
        itvl_max := 0x20
        high_duty_cycle := 0 }
    let wl_addr := (get_white_list_addr wl_addr0 d2.wl).2
    let adv_duration_ms := BLE_HS_FOREVER
    d2.emit (DeviceAction.ble_gap_adv_start d2.g_ble_addr_type (some wl_addr) adv_duration_ms
      adv_params)
  else if d.g_device_mode = g_device_mode_t.DELETION_MODE then
    let d1 :=
      if !white_list_is_empty d.wl then
        d.emit (DeviceAction.esp_sleep_enable_timer_wakeup DEEP_SLEEP_CYCLE_TIME)
      else d
    let d2 := d1.emit DeviceAction.led_turn_off
    let d3 := { d2 with g_device_mode := g_device_mode_t.UNSPECIFIED_MODE }
    d3.emit DeviceAction.esp_deep_sleep_start
  else d

/-- Source function `on_short_button_press`: its body is empty. -/
def on_short_button_press (d : Device) : Device :=
  d

/-- An event of the controller: a classified press or an event of the radio stack
together with the connection descriptor found for it. -/
inductive Event where
  | short_press
  | medium_press
  | long_press
  | gap (conn_desc : ble_gap_conn_desc) (event : GapEvent)
deriving DecidableEq

/-- One step of the controller: the handler that the event invokes. -/
def step (h : Host) (wl_addr0 : ble_addr_t) (ev : Event) (d : Device) : Device :=
  match ev with
  | Event.short_press => on_short_button_press d
  | Event.medium_press => on_medium_button_press h d
  | Event.long_press => on_long_button_press h wl_addr0 d
  | Event.gap conn_desc event => (ble_gap_event conn_desc event d).2

/-- The state after a sequence of events of the controller, first event first. -/
def run_events (h : Host) (wl_addr0 : ble_addr_t) (events : List Event) (d : Device) : Device :=
  events.foldl (fun st ev => step h wl_addr0 ev st) d

/-- No two occupied slots hold the address `addr`. With the capacity 1 of the source
this holds in every state. -/
def WhiteList.at_most_once (s : WhiteList) (addr : ble_addr_t) : Prop :=
  ∀ i j, s.occupied i → same_addr (s.entry i).device_addr addr →
    s.occupied j → same_addr (s.entry j).device_addr addr → i = j

/-! ## button.h: initialisation -/

/-- Value of the source constant `GPIO_BUTTON` (`GPIO_NUM_3`). -/
def GPIO_BUTTON : Nat := 3

/-- Source function `button_init`, called by `app_main` on every boot with the pin
`gpio_num` of the configuration: the pin is configured as an input that interrupts
on both edges, its interrupt is enabled, it is made a wake source of deep sleep (on
high level), the settle timer is created and the interrupt handler installed. -/
def button_init (gpio_num : Nat) (button_cnfg : button_cnfg_t) (s : ButtonState) :
    Int × ButtonState :=
  let init_status := ESP_OK
  let s1 := { s with g_button_cnfg := button_cnfg }
  let s2 := s1.emit (ButtonAction.gpio_config gpio_num)
  let s3 := { s2 with intr_enabled := true }.emit ButtonAction.gpio_intr_enable
  let s4 := s3.emit (ButtonAction.gpio_deep_sleep_wakeup_enable gpio_num)
  let s5 := s4.emit (ButtonAction.esp_deep_sleep_enable_gpio_wakeup (2 ^ gpio_num))
  let s6 := s5.emit ButtonAction.esp_timer_create
  let s7 := s6.emit ButtonAction.gpio_install_isr_service
  let s8 := s7.emit (ButtonAction.gpio_isr_handler_add gpio_num)
  (init_status, s8)

/-- The state `t` was reached from a trace `base` by enabling the interrupt first: the
interrupt is enabled in `t`, the first call after `base` is `gpio_intr_enable`, and
no later call disables the interrupt. -/
def ButtonState.reenabled (base : List ButtonAction) (t : ButtonState) : Prop :=
  t.intr_enabled = true ∧
  ∃ rest : List ButtonAction,
    t.trace = base ++ ButtonAction.gpio_intr_enable :: rest ∧
    ButtonAction.gpio_intr_disable ∉ rest

/-! ## main.c: the sleep decision read off the calls -/

/-- The durations of the timer wake-ups that a sequence of calls arms before its
first `esp_deep_sleep_start`. -/
def armed_timers : List DeviceAction → List Nat
  | [] => []
  | DeviceAction.esp_deep_sleep_start :: _ => []
  | DeviceAction.esp_sleep_enable_timer_wakeup time_in_us :: rest =>
    time_in_us :: armed_timers rest
  | _ :: rest => armed_timers rest

/-- The calls that one handler added to the trace: those of `after` behind the
calls of `before`. -/
def new_calls (before after : Device) : List DeviceAction :=
  after.trace.drop before.trace.length

/-! ## app_packet.h: get_packet_header -/

/-- Source function `get_packet_header`. `sizeof_packet` is the value of
`sizeof(packet)`, the size of a pointer on the target; `dest_header` is the previous
content of the output header. The result is the returned status and the output
header after the call. -/
def get_packet_header (h : Host) (sizeof_packet : Nat) (dest_header : Nat)
    (packet : Option (List Nat)) : Int × Nat :=
  match packet with
  | none => (-1, dest_header)
  | some pkt =>
    if sizeof_packet < HEADER_SIZE then (-1, dest_header)
    else
      let header_arr := memcpy [0, 0] pkt HEADER_SIZE
      let endianness := check_endianness h
      let header_arr1 :=
        if endianness = L_ENDIAN then reverse_bytes header_arr 2 else header_arr
      let header := load_uint h header_arr1
      if header ≠ REG_HEADER ∧ header ≠ DEL_HEADER ∧ header ≠ DATA_HEADER then
        (-1, dest_header)
      else (0, header)

/-! ## main.c: get_mac_str -/

/-- Value of the source constant `MAC_STR_SIZE` (`3 * 6`). -/
def MAC_STR_SIZE : Nat := 3 * 6

/-- The character that `%X` prints for one hexadecimal digit: `0` to `9`, then `A` to
`F`. -/
def hex_digit (n : Nat) : Nat :=
  if n < 10 then 48 + n else 55 + n

/-- The stores of `sprintf(dst + off, "%02X:", b)` for a byte `b`, as pairs of offset
and character: two digits, the colon and the terminating NUL. -/
def sprintf_writes (off : Nat) (b : Nat) : List (Nat × Nat) :=
  [(off, hex_digit (b / 16 % 16)), (off + 1, hex_digit (b % 16)), (off + 2, 58), (off + 3, 0)]

/-- The stores of the source function `get_mac_str`, in order: the six `sprintf`
calls of its loop, then the store to `(*mac_str)[MAC_STR_SIZE - 1]`. -/
def get_mac_str_writes (addr : List Nat) : List (Nat × Nat) :=
  (List.range 6).foldl
    (fun writes i => writes ++ sprintf_writes (i * 3) (addr.getD (5 - i) 0 % 256)) [] ++
    [(MAC_STR_SIZE - 1, 0)]

/-- Source function `get_mac_str`. `mem` is the memory from the first byte of
`*mac_str` on: the bytes of the array followed by the bytes behind it. -/
def get_mac_str (addr : List Nat) (mem : List Nat) : List Nat :=
  (get_mac_str_writes addr).foldl (fun m w => m.set w.1 w.2) mem

/-! ## Lemmas on the frame codec -/

theorem check_endianness_little : check_endianness Host.little = L_ENDIAN := by
  decide

theorem check_endianness_big : check_endianness Host.big = B_ENDIAN := by
  decide

theorem reverse_bytes_pair (a b : Nat) : reverse_bytes [a, b] 2 = [b, a] := by
  simp [reverse_bytes, swap_bytes, List.range_succ]

/-- After the conditional reversal the two bytes of a tag are in the same order on
both hosts: high byte first. -/
theorem tag_bytes_on_wire (h : Host) (v : Nat) :
    (if check_endianness h = L_ENDIAN then reverse_bytes (store_uint h 2 v) 2
      else store_uint h 2 v) = [v / 256 % 256, v % 256] := by
  cases h
  · rw [if_pos check_endianness_little]
    simp [store_uint, bytes_le, reverse_bytes_pair]
  · rw [if_neg (by decide)]
    simp [store_uint, bytes_le]

/-- After the conditional reversal a two-byte header array is read as the same value
on both hosts: first byte most significant. -/
theorem header_value_on_host (h : Host) (b0 b1 : Nat) :
    load_uint h (if check_endianness h = L_ENDIAN then reverse_bytes [b0, b1] 2 else [b0, b1])
      = b0 * 256 + b1 := by
  cases h
  · rw [if_pos check_endianness_little]
    simp [load_uint, value_le, reverse_bytes_pair]
    omega
  · rw [if_neg (by decide)]
    simp [load_uint, value_le]
    omega

/-- Closed form of `form_packet` on a destination that is not `NULL`. -/
theorem form_packet_bytes (h : Host) (dest : List Nat) (tag : Nat)
    (data_buff : Option (List Nat)) (n : Nat) :
    form_packet h (some dest) tag data_buff n =
      (0, some ([tag % 65536 / 256, tag % 256] ++
        (match data_buff with
          | some data => data.take (n % 256) ++ dest.drop (2 + n % 256)
          | none => dest.drop 2))) := by
  have hlow : tag % 65536 % 256 = tag % 256 := by omega
  have hhigh : tag % 65536 / 256 % 256 = tag % 65536 / 256 := by omega
  cases data_buff with
  | none =>
    simp only [form_packet, tag_bytes_on_wire, memcpy, HEADER_SIZE, hlow, hhigh]
    simp
  | some data =>
    simp only [form_packet, tag_bytes_on_wire, memcpy, memcpy_at, HEADER_SIZE, hlow, hhigh]
    simp [List.drop_drop, Nat.add_comm]

/-- A packet of at least two bytes starts with its two header bytes. -/
theorem packet_split (packet : List Nat) (hlen : 2 ≤ packet.length) :
    packet = packet.getD 0 0 :: packet.getD 1 0 :: packet.drop 2 := by
  match packet, hlen with
  | a :: b :: rest, _ => simp

/-- Closed form of `open_packet` on a packet that is not `NULL` and holds the
`packet_len` bytes it is said to hold. -/
theorem open_packet_closed (h : Host) (dest_header : Nat) (dest_buff : Option (List Nat))
    (packet : List Nat) (packet_len : Nat) (hlen : packet_len < 256)
    (hbuf : packet_len ≤ packet.length) :
    open_packet h dest_header dest_buff (some packet) packet_len =
      if packet_len < 2 ∨
          (wire_header packet ≠ REG_HEADER ∧ wire_header packet ≠ DEL_HEADER ∧
            wire_header packet ≠ DATA_HEADER) then
        { ret := -1, dest_header := dest_header, dest_buff := dest_buff }
      else
        { ret := 0, dest_header := wire_header packet,
          dest_buff := dest_buff.map (fun d =>
            (packet.drop 2).take (packet_len - 2) ++ d.drop (packet_len - 2)) } := by
  have hmod : packet_len % 256 = packet_len := Nat.mod_eq_of_lt hlen
  by_cases h2 : packet_len < 2
  · simp [open_packet, hmod, HEADER_SIZE, h2]
  · have hp := packet_split packet (by omega)
    have harr : memcpy [0, 0] packet HEADER_SIZE = [packet.getD 0 0, packet.getD 1 0] := by
      rw [hp]
      simp [memcpy, HEADER_SIZE]
    have hval := header_value_on_host h (packet.getD 0 0) (packet.getD 1 0)
    simp only [open_packet, hmod, harr, hval]
    rw [if_neg (by simpa [HEADER_SIZE] using h2)]
    simp only [wire_header, h2, false_or]
    split
    · rfl
    · cases dest_buff with
      | none => rfl
      | some d =>
        by_cases h3 : packet_len > 2
        · simp [HEADER_SIZE, h3, memcpy]
        · have : packet_len = 2 := by omega
          simp [HEADER_SIZE, this]

/-! ## The frame codec: claims C1 to C3 -/

/-- C1. Round trip of the frame codec. For each of the three tags and every payload
of at most 253 bytes (passed as a buffer, or as `NULL` when there are no payload
bytes), `form_packet` on a destination of at least `n + 2` bytes returns 0, and
`open_packet` applied to the resulting buffer with length `n + 2` returns 0, stores
the tag in `dest_header` and the `n` payload bytes at the start of `dest_buff`. -/
theorem form_open_round_trip (h : Host) (tag : Nat) (payload dest : List Nat)
    (data_buff : Option (List Nat)) (dest_header : Nat) (dest_buff : List Nat)
    (htag : tag = REG_HEADER ∨ tag = DEL_HEADER ∨ tag = DATA_HEADER)
    (hn : payload.length ≤ 253)
    (hdata : data_buff = some payload ∨ (data_buff = none ∧ payload = []))
    (hdest : payload.length + 2 ≤ dest.length) :
    ∃ packet : List Nat,
      form_packet h (some dest) tag data_buff payload.length = (0, some packet) ∧
      packet.length = dest.length ∧
      open_packet h dest_header (some dest_buff) (some packet) (payload.length + 2) =
        { ret := 0, dest_header := tag,
          dest_buff := some (payload ++ dest_buff.drop payload.length) } := by
  have hmod : payload.length % 256 = payload.length := by omega
  have hpkt : form_packet h (some dest) tag data_buff payload.length =
      (0, some ([tag / 256, tag % 256] ++ (payload ++ dest.drop (2 + payload.length)))) := by
    have htag16 : tag % 65536 = tag := by
      rcases htag with rfl | rfl | rfl <;> decide
    rw [form_packet_bytes, htag16, hmod]
    rcases hdata with rfl | ⟨rfl, rfl⟩
    · simp
    · simp
  refine ⟨_, hpkt, ?_, ?_⟩
  · simp
    omega
  · rw [open_packet_closed h dest_header (some dest_buff) _ _ (by omega) (by simp)]
    have hw : wire_header ([tag / 256, tag % 256] ++ (payload ++ dest.drop (2 + payload.length)))
        = tag := by
      simp only [wire_header, List.cons_append, List.nil_append, List.getD_cons_zero,
        List.getD_cons_succ]
      omega
    rw [hw]
    have hvalid : ¬ (payload.length + 2 < 2 ∨
        (tag ≠ REG_HEADER ∧ tag ≠ DEL_HEADER ∧ tag ≠ DATA_HEADER)) := by
      rcases htag with rfl | rfl | rfl <;> simp [REG_HEADER, DEL_HEADER, DATA_HEADER]
    rw [if_neg hvalid]
    simp

/-- Witness of C1: a Data frame with the payload `[0x12, 0x34]` on a little-endian
host. -/
theorem form_open_round_trip_witness :
    ∃ packet : List Nat,
      form_packet Host.little (some [0, 0, 0, 0]) DATA_HEADER (some [0x12, 0x34]) 2
        = (0, some packet) ∧
      packet.length = 4 ∧
      open_packet Host.little 0 (some [0, 0]) (some packet) 4 =
        { ret := 0, dest_header := DATA_HEADER, dest_buff := some [0x12, 0x34] } :=
  form_open_round_trip Host.little DATA_HEADER [0x12, 0x34] [0, 0, 0, 0] (some [0x12, 0x34]) 0
    [0, 0] (Or.inr (Or.inr rfl)) (by decide) (Or.inl rfl) (by decide)

/-- C2. `open_packet` fails exactly on malformed input. For a packet that is not
`NULL` and holds `packet_len` bytes, the status is -1 if and only if `packet_len < 2`
or the value of the first two bytes (first byte most significant) is none of 1, 2,
3; then both outputs are unchanged. Otherwise the status is 0, `dest_header` holds
that value and the `packet_len - 2` bytes after the header are copied to the start
of `dest_buff`. -/
theorem open_packet_fails_iff_malformed (h : Host) (dest_header : Nat) (dest_buff : List Nat)
    (packet : List Nat) (packet_len : Nat) (hlen : packet_len < 256)
    (hbuf : packet_len ≤ packet.length) :
    ((open_packet h dest_header (some dest_buff) (some packet) packet_len).ret = -1 ↔
      (packet_len < 2 ∨
        (wire_header packet ≠ 0x0001 ∧ wire_header packet ≠ 0x0002 ∧
          wire_header packet ≠ 0x0003))) ∧
    ((open_packet h dest_header (some dest_buff) (some packet) packet_len).ret = -1 →
      open_packet h dest_header (some dest_buff) (some packet) packet_len =
        { ret := -1, dest_header := dest_header, dest_buff := some dest_buff }) ∧
    ((open_packet h dest_header (some dest_buff) (some packet) packet_len).ret ≠ -1 →
      open_packet h dest_header (some dest_buff) (some packet) packet_len =
        { ret := 0, dest_header := wire_header packet,
          dest_buff := some ((packet.drop 2).take (packet_len - 2) ++
            dest_buff.drop (packet_len - 2)) }) := by
  rw [open_packet_closed h dest_header (some dest_buff) packet packet_len hlen hbuf]
  simp only [REG_HEADER, DEL_HEADER, DATA_HEADER]
  split <;> rename_i hc
  · simp [hc]
  · simp [hc]

/-- Witness of C2: a three-byte packet whose header is the unknown value 4. -/
theorem open_packet_fails_iff_malformed_witness :
    ((open_packet Host.big 7 (some [9]) (some [0, 4, 5]) 3).ret = -1 ↔
      ((3 : Nat) < 2 ∨
        (wire_header [0, 4, 5] ≠ 0x0001 ∧ wire_header [0, 4, 5] ≠ 0x0002 ∧
          wire_header [0, 4, 5] ≠ 0x0003))) ∧
    ((open_packet Host.big 7 (some [9]) (some [0, 4, 5]) 3).ret = -1 →
      open_packet Host.big 7 (some [9]) (some [0, 4, 5]) 3 =
        { ret := -1, dest_header := 7, dest_buff := some [9] }) ∧
    ((open_packet Host.big 7 (some [9]) (some [0, 4, 5]) 3).ret ≠ -1 →
      open_packet Host.big 7 (some [9]) (some [0, 4, 5]) 3 =
        { ret := 0, dest_header := wire_header [0, 4, 5],
          dest_buff := some ((([0, 4, 5] : List Nat).drop 2).take (3 - 2) ++
            ([9] : List Nat).drop (3 - 2)) }) :=
  open_packet_fails_iff_malformed Host.big 7 [9] [0, 4, 5] 3 (by decide) (by decide)

/-- C3. The wire byte order does not depend on the host. `check_endianness` tells
the two hosts apart, yet on both `form_packet` writes the high byte of the tag, its
low byte, then the payload bytes unchanged; the Data frame of the sensor bytes
`b0, b1` is `[0x00, 0x03, b0, b1]`; and `open_packet` gives the same result on both
hosts for the same packet. -/
theorem wire_order_host_independent (dest payload packet : List Nat) (tag : Nat)
    (dest_header packet_len : Nat) (dest_buff : Option (List Nat))
    (htag : tag < 65536) (hn : payload.length < 256) (hlen : packet_len < 256)
    (hbuf : packet_len ≤ packet.length) :
    check_endianness Host.little = L_ENDIAN ∧ check_endianness Host.big = B_ENDIAN ∧
    (∀ h : Host, form_packet h (some dest) tag (some payload) payload.length =
      (0, some ([tag / 256, tag % 256] ++ payload ++ dest.drop (2 + payload.length)))) ∧
    (∀ (h : Host) (b0 b1 x0 x1 x2 x3 : Nat),
      form_packet h (some [x0, x1, x2, x3]) DATA_HEADER (some [b0, b1]) 2 =
        (0, some [0x00, 0x03, b0, b1])) ∧
    open_packet Host.little dest_header dest_buff (some packet) packet_len =
      open_packet Host.big dest_header dest_buff (some packet) packet_len := by
  refine ⟨check_endianness_little, check_endianness_big, ?_, ?_, ?_⟩
  · intro h
    rw [form_packet_bytes, Nat.mod_eq_of_lt htag, Nat.mod_eq_of_lt hn]
    simp
  · intro h b0 b1 x0 x1 x2 x3
    rw [form_packet_bytes]
    simp [DATA_HEADER]
  · rw [open_packet_closed Host.little dest_header dest_buff packet packet_len hlen hbuf,
      open_packet_closed Host.big dest_header dest_buff packet packet_len hlen hbuf]

/-- Witness of C3: the Register tag with a one-byte payload, and a Delete frame. -/
theorem wire_order_host_independent_witness :
    check_endianness Host.little = L_ENDIAN ∧ check_endianness Host.big = B_ENDIAN ∧
    (∀ h : Host, form_packet h (some [0, 0, 0]) REG_HEADER (some [0xAB]) ([0xAB] : List Nat).length =
      (0, some ([REG_HEADER / 256, REG_HEADER % 256] ++ [0xAB] ++
        ([0, 0, 0] : List Nat).drop (2 + ([0xAB] : List Nat).length)))) ∧
    (∀ (h : Host) (b0 b1 x0 x1 x2 x3 : Nat),
      form_packet h (some [x0, x1, x2, x3]) DATA_HEADER (some [b0, b1]) 2 =
        (0, some [0x00, 0x03, b0, b1])) ∧
    open_packet Host.little 0 none (some [0, 2]) 2 =
      open_packet Host.big 0 none (some [0, 2]) 2 :=
  wire_order_host_independent [0, 0, 0] [0xAB] [0, 2] REG_HEADER 0 2 none (by decide) (by decide)
    (by decide) (by decide)

/-! ## Lemmas on the button debouncer -/

/-- Exact arithmetic has the properties required of a rounding. -/
theorem isRounding_id : IsRounding (fun x : ℚ => x) where
  mono := fun _ _ hxy => hxy
  exact := fun _ _ => rfl
  error := fun x hx _ => by
    have : (0 : ℚ) ≤ x / 2 ^ 53 := by positivity
    linarith

/-- The rounded period in milliseconds is below an integer threshold exactly when the
period in microseconds is below one thousand times the threshold. -/
theorem period_ms_lt_iff (fl : ℚ → ℚ) (hfl : IsRounding fl) (d : Int) (hd : 0 ≤ d)
    (t : Nat) (ht : t < 65536) :
    period_ms fl d < (t : ℚ) ↔ d < 1000 * (t : Int) := by
  constructor
  · intro hlt
    by_contra hge
    have hge1 : 1000 * (t : Int) ≤ d := by omega
    have hq : (((1000 * (t : Int) : Int)) : ℚ) ≤ (d : ℚ) := by exact_mod_cast hge1
    have h1 := hfl.mono _ _ hq
    have hex : fl (((1000 * (t : Int) : Int)) : ℚ) = (((1000 * (t : Int) : Int)) : ℚ) := by
      apply hfl.exact
      rw [abs_of_nonneg (by omega)]
      have : (1000 * (t : Int)) ≤ 1000 * 65536 := by omega
      exact le_trans this (by norm_num)
    rw [hex] at h1
    push_cast at h1
    have h2 : (t : ℚ) ≤ fl (d : ℚ) / 1000 := by
      rw [le_div_iff₀ (by norm_num)]
      linarith
    have h3 := hfl.mono _ _ h2
    have hex2 : fl ((t : Int) : ℚ) = ((t : Int) : ℚ) := by
      apply hfl.exact
      rw [abs_of_nonneg (by omega)]
      have : (t : Int) ≤ 65536 := by omega
      exact le_trans this (by norm_num)
    push_cast at hex2
    rw [hex2] at h3
    unfold period_ms at hlt
    linarith
  · intro hlt
    have hdex : fl (d : ℚ) = (d : ℚ) := by
      apply hfl.exact
      rw [abs_of_nonneg hd]
      have : d ≤ 1000 * 65536 := by omega
      exact le_trans this (by norm_num)
    unfold period_ms
    rw [hdex]
    have hdq : (d : ℚ) + 1 ≤ 1000 * (t : ℚ) := by
      have : d + 1 ≤ 1000 * (t : Int) := by omega
      exact_mod_cast this
    have htq : (t : ℚ) ≤ 65536 := by
      have : t ≤ 65536 := by omega
      exact_mod_cast this
    rcases hd.eq_or_lt with h0 | hpos
    · rw [← h0]
      have hz : fl ((0 : Int) : ℚ) = ((0 : Int) : ℚ) := hfl.exact 0 (by norm_num)
      simp only [Int.cast_zero, zero_div] at hz ⊢
      rw [hz]
      rw [← h0] at hdq
      simp only [Int.cast_zero, zero_add] at hdq
      linarith
    · have hd1 : (1 : ℚ) ≤ (d : ℚ) := by
        have : (1 : Int) ≤ d := by omega
        exact_mod_cast this
      have hx1 : (1 : ℚ) / 1000 ≤ (d : ℚ) / 1000 := by
        apply div_le_div_of_nonneg_right hd1 (by norm_num)
      have hx2 : (d : ℚ) / 1000 ≤ 65536 := by
        rw [div_le_iff₀ (by norm_num)]
        linarith
      have herr := hfl.error _ hx1 hx2
      have hsmall : (d : ℚ) / 1000 / 2 ^ 53 < 1 / 1000 := by
        rw [div_lt_iff₀ (by positivity)]
        have : (1 : ℚ) / 1000 * 2 ^ 53 > 65536 := by norm_num
        linarith
      have hx3 : (d : ℚ) / 1000 ≤ (t : ℚ) - 1 / 1000 := by
        rw [div_le_iff₀ (by norm_num)]
        linarith
      linarith

/-- A negative period is rounded to a value that is not positive. -/
theorem period_ms_nonpos (fl : ℚ → ℚ) (hfl : IsRounding fl) (d : Int) (hd : d < 0) :
    period_ms fl d ≤ 0 := by
  have hz : fl ((0 : Int) : ℚ) = ((0 : Int) : ℚ) := hfl.exact 0 (by norm_num)
  simp only [Int.cast_zero] at hz
  have hq : (d : ℚ) ≤ 0 := by
    have : d ≤ 0 := by omega
    exact_mod_cast this
  have h1 := hfl.mono _ _ hq
  rw [hz] at h1
  have h2 : fl (d : ℚ) / 1000 ≤ 0 := by
    apply div_nonpos_of_nonpos_of_nonneg h1 (by norm_num)
  have h3 := hfl.mono _ _ h2
  rw [hz] at h3
  exact h3

/-- Exact comparison of a period in microseconds with a threshold in milliseconds. -/
theorem exact_ms_lt_iff (d : Int) (t : Nat) :
    (d : ℚ) / 1000 < (t : ℚ) ↔ d < 1000 * (t : Int) := by
  rw [div_lt_iff₀ (by norm_num)]
  constructor
  · intro hlt
    have : (d : ℚ) < ((1000 * (t : Int) : Int) : ℚ) := by
      push_cast
      linarith
    exact_mod_cast this
  · intro hlt
    have : (d : ℚ) < ((1000 * (t : Int) : Int) : ℚ) := by exact_mod_cast hlt
    push_cast at this
    linarith

/-- A value of the type `int64_t` is not changed by the reduction to 64 bits. -/
theorem int64_wrap_of_range (x : Int) (hx : is_int64 x) : int64_wrap x = x := by
  unfold is_int64 at hx
  unfold int64_wrap
  omega

/-- The reduction to 64 bits yields a value of the type `int64_t`. -/
theorem int64_wrap_range (x : Int) : is_int64 (int64_wrap x) := by
  unfold is_int64 int64_wrap
  omega

/-- The `int64_t` difference is the difference when that is a value of the type. -/
theorem int64_sub_of_range (a b : Int) (hd : is_int64 (a - b)) : int64_sub a b = a - b :=
  int64_wrap_of_range (a - b) hd

/-- When the release time stamp is the smaller one and the difference is a value of
`int64_t`, the period that the code computes is negative. -/
theorem int64_sub_neg_of_lt (a b : Int) (hlt : a < b) (hd : is_int64 (a - b)) :
    int64_sub a b < 0 := by
  rw [int64_sub_of_range a b hd]
  omega

/-- The timer callback at a release (the level went from non-zero to 0) after a press
of non-negative duration, with the comparisons of the source replaced by exact ones. -/
theorem glitching_timer_cb_release (fl : ℚ → ℚ) (hfl : IsRounding fl) (s : ButtonState)
    (now : Int) (hprev : s.prev_gpio_level ≠ 0)
    (hd : 0 ≤ int64_sub now s.g_button_pressed_time)
    (hshort : s.g_button_cnfg.short_button_press_period_ms < 65536)
    (hmedium : s.g_button_cnfg.medium_button_press_period_ms < 65536) :
    glitching_timer_cb fl 0 now s =
      { s with
        intr_enabled := true
        g_button_released_time := now
        prev_gpio_level := 0
        trace := s.trace ++ ButtonAction.gpio_intr_enable ::
          (if int64_sub now s.g_button_pressed_time
              < 1000 * (s.g_button_cnfg.short_button_press_period_ms : Int) then
            Bucket.short
          else if int64_sub now s.g_button_pressed_time
              < 1000 * (s.g_button_cnfg.medium_button_press_period_ms : Int) then
            Bucket.medium
          else Bucket.long).actions s.g_button_cnfg } := by
  have hA := period_ms_lt_iff fl hfl _ hd _ hshort
  have hB := period_ms_lt_iff fl hfl _ hd _ hmedium
  have hnn : ¬ (int64_sub now s.g_button_pressed_time < 0) := not_lt.mpr hd
  simp only [glitching_timer_cb, ButtonState.emit, ne_eq, hprev, not_false_eq_true, if_true,
    if_false, zero_ne_one, hnn, ge_iff_le, not_lt.symm, hA, hB, ButtonState.call]
  by_cases h1 : int64_sub now s.g_button_pressed_time
      < 1000 * (s.g_button_cnfg.short_button_press_period_ms : Int)
  · simp only [h1, if_true, Bucket.actions]
    cases s.g_button_cnfg.on_short_button_press_cb <;> simp
  · by_cases h2 : int64_sub now s.g_button_pressed_time
        < 1000 * (s.g_button_cnfg.medium_button_press_period_ms : Int)
    · simp only [h1, h2, if_true, if_false, not_false_eq_true, and_self, Bucket.actions]
      cases s.g_button_cnfg.on_medium_button_press_cb <;> simp
    · simp only [h1, h2, if_true, if_false, not_false_eq_true, and_false, Bucket.actions]
      cases s.g_button_cnfg.on_long_button_press_cb <;> simp

/-! ## The button debouncer: claims C4 and C5 -/

/-- C4. Press classification at a release. For every rounding `fl` of `double`
arithmetic, every release at which the press duration `d` that the code computes
(the `int64_t` difference of the release time stamp and the press-start time stamp,
in microseconds) is non-negative, and thresholds `short_max < medium_max` (16-bit
milliseconds), the timer callback re-enables the interrupt, records the release
time and performs the actions of exactly one bucket `b`: Short iff
`d / 1000 < short_max`, Medium iff `short_max ≤ d / 1000 < medium_max`, Long iff
`d / 1000 ≥ medium_max`. With the thresholds 1000 and 5000 that `app_main`
configures, 999 ms is Short, 1000 ms and 4999 ms are Medium and 5000 ms is Long.
The duration `d` is the difference of the two time stamps whenever that difference
is a value of `int64_t`. -/
theorem press_classification (fl : ℚ → ℚ) (hfl : IsRounding fl) (s : ButtonState)
    (now : Int) (hprev : s.prev_gpio_level ≠ 0)
    (hd : 0 ≤ int64_sub now s.g_button_pressed_time)
    (hshort : s.g_button_cnfg.short_button_press_period_ms < 65536)
    (hmedium : s.g_button_cnfg.medium_button_press_period_ms < 65536)
    (hord : s.g_button_cnfg.short_button_press_period_ms
      < s.g_button_cnfg.medium_button_press_period_ms) :
    ∃ b : Bucket,
      glitching_timer_cb fl 0 now s =
        { s with
          intr_enabled := true
          g_button_released_time := now
          prev_gpio_level := 0
          trace := s.trace ++ ButtonAction.gpio_intr_enable :: b.actions s.g_button_cnfg } ∧
      (b = Bucket.short ↔
        ((int64_sub now s.g_button_pressed_time : Int) : ℚ) / 1000
          < (s.g_button_cnfg.short_button_press_period_ms : ℚ)) ∧
      (b = Bucket.medium ↔
        (s.g_button_cnfg.short_button_press_period_ms : ℚ)
            ≤ ((int64_sub now s.g_button_pressed_time : Int) : ℚ) / 1000 ∧
          ((int64_sub now s.g_button_pressed_time : Int) : ℚ) / 1000
            < (s.g_button_cnfg.medium_button_press_period_ms : ℚ)) ∧
      (b = Bucket.long ↔
        (s.g_button_cnfg.medium_button_press_period_ms : ℚ)
          ≤ ((int64_sub now s.g_button_pressed_time : Int) : ℚ) / 1000) ∧
      (s.g_button_cnfg.short_button_press_period_ms = 1000 →
        s.g_button_cnfg.medium_button_press_period_ms = 5000 →
        (int64_sub now s.g_button_pressed_time = 999 * 1000 → b = Bucket.short) ∧
        (int64_sub now s.g_button_pressed_time = 1000 * 1000 → b = Bucket.medium) ∧
        (int64_sub now s.g_button_pressed_time = 4999 * 1000 → b = Bucket.medium) ∧
        (int64_sub now s.g_button_pressed_time = 5000 * 1000 → b = Bucket.long)) ∧
      (is_int64 (now - s.g_button_pressed_time) →
        int64_sub now s.g_button_pressed_time = now - s.g_button_pressed_time) := by
  have hcb := glitching_timer_cb_release fl hfl s now hprev hd hshort hmedium
  have hS := exact_ms_lt_iff (int64_sub now s.g_button_pressed_time)
    s.g_button_cnfg.short_button_press_period_ms
  have hM := exact_ms_lt_iff (int64_sub now s.g_button_pressed_time)
    s.g_button_cnfg.medium_button_press_period_ms
  have hordz : (s.g_button_cnfg.short_button_press_period_ms : Int)
      < (s.g_button_cnfg.medium_button_press_period_ms : Int) := by exact_mod_cast hord
  refine ⟨_, hcb, ?_, ?_, ?_, ?_, int64_sub_of_range now s.g_button_pressed_time⟩
  · rw [hS]
    split_ifs <;> simp_all
  · rw [← not_lt, hS, hM]
    split_ifs <;> simp_all
  · rw [← not_lt, hM]
    split_ifs <;> simp_all
    omega
  · intro h1 h2
    rw [h1, h2]
    refine ⟨?_, ?_, ?_, ?_⟩ <;> intro hdur <;> rw [hdur] <;> decide

/-- Witness of C4: with the configuration of `app_main` and exact arithmetic, a
press started at time 0 and released after 1000 ms. -/
theorem press_classification_witness :
    ∃ b : Bucket,
      glitching_timer_cb (fun x : ℚ => x) 0 1000000
          { g_button_cnfg := app_button_cnfg, g_button_pressed_time := 0,
            g_button_released_time := 0, prev_gpio_level := 1, intr_enabled := false,
            trace := [] } =
        { g_button_cnfg := app_button_cnfg, g_button_pressed_time := 0,
          g_button_released_time := 1000000, prev_gpio_level := 0, intr_enabled := true,
          trace := [] ++ ButtonAction.gpio_intr_enable :: b.actions app_button_cnfg } ∧
      b = Bucket.medium := by
  obtain ⟨b, hcb, -, -, -, hex, -⟩ := press_classification (fun x : ℚ => x) isRounding_id
    { g_button_cnfg := app_button_cnfg, g_button_pressed_time := 0,
      g_button_released_time := 0, prev_gpio_level := 1, intr_enabled := false,
      trace := [] } 1000000 (by decide) (by decide) (by decide) (by decide) (by decide)
  exact ⟨b, hcb, (hex rfl rfl).2.1 (by decide)⟩

/-- C5, behaviour of the code. At a release for which the period that the code
computes, the `int64_t` difference of the release time stamp and the recorded
press-start time stamp, is negative (so whenever the release time stamp is the
smaller one and the difference is a value of `int64_t`), the timer callback logs
the measurement error and then classifies the negative period all the same: it is
below the (positive) short threshold, so the short bucket is logged and the
registered short handler is called. -/
theorem negative_period_calls_short_handler (fl : ℚ → ℚ) (hfl : IsRounding fl)
    (s : ButtonState) (now : Int) (hprev : s.prev_gpio_level ≠ 0)
    (hneg : int64_sub now s.g_button_pressed_time < 0)
    (hshort : 0 < s.g_button_cnfg.short_button_press_period_ms)
    (hcb : s.g_button_cnfg.on_short_button_press_cb = true) :
    (glitching_timer_cb fl 0 now s).trace =
      s.trace ++ [ButtonAction.gpio_intr_enable, ButtonAction.log_measurement_error,
        ButtonAction.log_short, ButtonAction.on_short_button_press_cb] := by
  have hd : int64_sub now s.g_button_pressed_time < 0 := hneg
  have hp := period_ms_nonpos fl hfl _ hd
  have hq : (0 : ℚ) < (s.g_button_cnfg.short_button_press_period_ms : ℚ) := by
    exact_mod_cast hshort
  have hlt : period_ms fl (int64_sub now s.g_button_pressed_time)
      < (s.g_button_cnfg.short_button_press_period_ms : ℚ) := lt_of_le_of_lt hp hq
  simp [glitching_timer_cb, ButtonState.emit, ButtonState.call, hprev, hd, hlt, hcb]

/-- Failing input of C5: with the configuration of `app_main`, a press recorded at
2,000,000 microseconds and a release sampled at 1,000,000 microseconds. -/
theorem negative_period_calls_short_handler_witness :
    (glitching_timer_cb (fun x : ℚ => x) 0 1000000
        { g_button_cnfg := app_button_cnfg, g_button_pressed_time := 2000000,
          g_button_released_time := 0, prev_gpio_level := 1, intr_enabled := false,
          trace := [] }).trace =
      [] ++ [ButtonAction.gpio_intr_enable, ButtonAction.log_measurement_error,
        ButtonAction.log_short, ButtonAction.on_short_button_press_cb] :=
  negative_period_calls_short_handler (fun x : ℚ => x) isRounding_id
    { g_button_cnfg := app_button_cnfg, g_button_pressed_time := 2000000,
      g_button_released_time := 0, prev_gpio_level := 1, intr_enabled := false,
      trace := [] } 1000000 (by decide) (by decide) (by decide) rfl

/-! ## Lemmas on the white list -/

theorem getD_zero_eq_headD (a : List Nat) : a.getD 0 0 = a.headD 0 := by
  cases a <;> rfl

theorem getD_succ_eq_tail (a : List Nat) (i : Nat) : a.getD (i + 1) 0 = a.tail.getD i 0 := by
  cases a <;> simp

/-- `memcmp` returns zero exactly when the first `n` bytes agree. -/
theorem memcmp_eq_zero_iff (n : Nat) :
    ∀ a b : List Nat, memcmp a b n = 0 ↔ ∀ i, i < n → a.getD i 0 = b.getD i 0 := by
  induction n with
  | zero => intro a b; simp [memcmp]
  | succ n ih =>
    intro a b
    rw [memcmp]
    split_ifs with hhead
    · rw [ih]
      constructor
      · intro hh i hi
        cases i with
        | zero => rw [getD_zero_eq_headD, getD_zero_eq_headD, hhead]
        | succ i =>
          rw [getD_succ_eq_tail, getD_succ_eq_tail]
          exact hh i (by omega)
      · intro hh i hi
        rw [← getD_succ_eq_tail, ← getD_succ_eq_tail]
        exact hh (i + 1) (by omega)
    · constructor
      · intro hz
        exfalso
        apply hhead
        omega
      · intro hh
        exfalso
        apply hhead
        rw [← getD_zero_eq_headD, ← getD_zero_eq_headD]
        exact hh 0 (by omega)

/-- `addrs_are_equal` decides equality of the address type and the six bytes. -/
theorem addrs_are_equal_iff (a b : ble_addr_t) : addrs_are_equal a b = true ↔ same_addr a b := by
  unfold addrs_are_equal same_addr
  by_cases ht : a.type = b.type
  · by_cases hm : memcmp a.val b.val 6 = 0
    · simp only [ht, hm, if_true, true_and, true_iff]
      exact (memcmp_eq_zero_iff 6 a.val b.val).1 hm
    · simp only [ht, hm, if_true, if_false, true_and, Bool.false_eq_true, false_iff]
      intro hh
      exact hm ((memcmp_eq_zero_iff 6 a.val b.val).2 hh)
  · simp [ht]

theorem same_addr_refl (a : ble_addr_t) : same_addr a a :=
  ⟨rfl, fun _ _ => rfl⟩

theorem entry_eq_getElem (s : WhiteList) (i : Nat) (hi : i < s.white_list.length) :
    s.entry i = s.white_list[i] := by
  unfold WhiteList.entry
  exact List.getD_eq_getElem _ _ hi

theorem occupied_count_eq_countP (s : WhiteList) :
    s.occupied_count = s.white_list.countP (fun e => !e.addr_is_empty) := by
  unfold WhiteList.occupied_count
  rw [List.countP_eq_length_filter]

/-- The counting loop of `get_white_list_len` over the first `n` entries. -/
theorem count_loop_eq (l : List device_data_t) :
    ∀ n, n ≤ l.length → n < 256 →
      (List.range n).foldl
        (fun cnt i => if !(l.getD i no_entry).addr_is_empty then (cnt + 1) % 256 else cnt) 0
      = (l.take n).countP (fun e => !e.addr_is_empty) := by
  intro n
  induction n with
  | zero => intro _ _; simp
  | succ n ih =>
    intro hle hlt
    have hn : n < l.length := by omega
    rw [List.range_succ, List.foldl_append, ih (by omega) (by omega), List.take_succ,
      List.countP_append, List.getElem?_eq_getElem hn]
    have hbound : (l.take n).countP (fun e => !e.addr_is_empty) ≤ n := by
      refine le_trans (List.countP_le_length _) ?_
      simp
    simp only [List.foldl_cons, List.foldl_nil, List.getD_eq_getElem _ _ hn, Option.toList,
      List.countP_cons, List.countP_nil]
    cases l[n].addr_is_empty
    · simp
      omega
    · simp

/-- On a consistent array `get_white_list_len` counts the occupied entries. -/
theorem get_white_list_len_eq (s : WhiteList) (hsize : s.white_list.length = s.white_list_size)
    (hlt : s.white_list_size < 256) : get_white_list_len s = s.occupied_count := by
  unfold get_white_list_len WhiteList.entry
  rw [count_loop_eq s.white_list s.white_list_size (by omega) hlt, occupied_count_eq_countP,
    ← hsize, List.take_length]

/-- The least index below `n` at which a decidable property holds. -/
theorem exists_least_index (p : Nat → Prop) (n : Nat)
    (hex : ∃ j, j < n ∧ p j) : ∃ j, j < n ∧ p j ∧ ∀ k, k < j → ¬ p k := by
  classical
  have hex1 : ∃ j, p j := by
    obtain ⟨j, -, hj⟩ := hex
    exact ⟨j, hj⟩
  refine ⟨Nat.find hex1, ?_, Nat.find_spec hex1, fun k hk => Nat.find_min hex1 hk⟩
  obtain ⟨j, hjn, hj⟩ := hex
  exact lt_of_le_of_lt (Nat.find_min' hex1 hj) hjn

/-- The search loop of `push_to_white_list` stops at the first empty entry. -/
theorem push_loop_found (addr : ble_addr_t) (s : WhiteList) (j : Nat)
    (hj : j < s.white_list.length) (hempty : (s.entry j).addr_is_empty = true) :
    ∀ fuel i, i ≤ j → j < i + fuel →
      (∀ k, i ≤ k → k < j → (s.entry k).addr_is_empty = false) →
      push_loop addr s fuel i =
        (ESP_OK, { s with
          white_list := s.white_list.set j { device_addr := addr, addr_is_empty := false }
          white_list_len := (s.white_list_len + 1) % 256 }) := by
  intro fuel
  induction fuel with
  | zero => intro i h1 h2; omega
  | succ fuel ih =>
    intro i h1 h2 hfull
    rw [push_loop]
    by_cases hij : i = j
    · subst hij
      rw [if_pos hempty]
      simp [WhiteList.entry, List.getElem?_set_self hj]
    · have hne : (s.entry i).addr_is_empty = false := hfull i (le_refl i) (by omega)
      rw [if_neg (by simp [hne])]
      exact ih (i + 1) (by omega) (by omega) (fun k hk1 hk2 => hfull k (by omega) hk2)

/-- The search loop of `push_to_white_list` fails when no entry in its range is empty. -/
theorem push_loop_none (addr : ble_addr_t) (s : WhiteList) :
    ∀ fuel i, (∀ k, i ≤ k → k < i + fuel → (s.entry k).addr_is_empty = false) →
      push_loop addr s fuel i = (ESP_FAIL, s) := by
  intro fuel
  induction fuel with
  | zero => intro i _; rfl
  | succ fuel ih =>
    intro i hfull
    rw [push_loop]
    have hne : (s.entry i).addr_is_empty = false := hfull i (le_refl i) (by omega)
    rw [if_neg (by simp [hne])]
    exact ih (i + 1) (fun k hk1 hk2 => hfull k (by omega) (by omega))

/-- The test of the loops of `remove_from_white_list_by_addr` and
`white_list_contains_addr` at index `k`: the entry is occupied and holds `addr`. -/
theorem match_test_iff (addr : ble_addr_t) (s : WhiteList) (k : Nat) :
    (!(s.entry k).addr_is_empty && addrs_are_equal (s.entry k).device_addr addr) = true ↔
      ((s.entry k).addr_is_empty = false ∧ same_addr (s.entry k).device_addr addr) := by
  rw [Bool.and_eq_true, addrs_are_equal_iff]
  simp

/-- The search loop of `remove_from_white_list_by_addr` stops at the first occupied
entry that holds the address. -/
theorem remove_loop_found (addr : ble_addr_t) (s : WhiteList) (j : Nat)
    (hmatch : (s.entry j).addr_is_empty = false ∧ same_addr (s.entry j).device_addr addr) :
    ∀ fuel i, i ≤ j → j < i + fuel →
      (∀ k, i ≤ k → k < j →
        ¬ ((s.entry k).addr_is_empty = false ∧ same_addr (s.entry k).device_addr addr)) →
      remove_loop addr s fuel i =
        (ESP_OK, { s with
          white_list := s.white_list.set j { s.entry j with addr_is_empty := true }
          white_list_len := (s.white_list_len + 255) % 256 }) := by
  intro fuel
  induction fuel with
  | zero => intro i h1 h2; omega
  | succ fuel ih =>
    intro i h1 h2 hnone
    rw [remove_loop]
    by_cases hij : i = j
    · subst hij
      rw [if_pos ((match_test_iff addr s i).2 hmatch)]
    · have hne := hnone i (le_refl i) (by omega)
      rw [if_neg (fun hc => hne ((match_test_iff addr s i).1 hc))]
      exact ih (i + 1) (by omega) (by omega) (fun k hk1 hk2 => hnone k (by omega) hk2)

/-- The search loop of `remove_from_white_list_by_addr` fails when no entry in its
range is occupied by the address. -/
theorem remove_loop_none (addr : ble_addr_t) (s : WhiteList) :
    ∀ fuel i,
      (∀ k, i ≤ k → k < i + fuel →
        ¬ ((s.entry k).addr_is_empty = false ∧ same_addr (s.entry k).device_addr addr)) →
      remove_loop addr s fuel i = (ESP_FAIL, s) := by
  intro fuel
  induction fuel with
  | zero => intro i _; rfl
  | succ fuel ih =>
    intro i hnone
    rw [remove_loop]
    have hne := hnone i (le_refl i) (by omega)
    rw [if_neg (fun hc => hne ((match_test_iff addr s i).1 hc))]
    exact ih (i + 1) (fun k hk1 hk2 => hnone k (by omega) (by omega))

/-- The search loop of `white_list_contains_addr` answers whether some entry in its
range is occupied by the address. -/
theorem contains_loop_iff (addr : ble_addr_t) (s : WhiteList) :
    ∀ fuel i, contains_loop addr s fuel i = true ↔
      ∃ k, i ≤ k ∧ k < i + fuel ∧
        ((s.entry k).addr_is_empty = false ∧ same_addr (s.entry k).device_addr addr) := by
  intro fuel
  induction fuel with
  | zero =>
    intro i
    simp only [contains_loop, Bool.false_eq_true, false_iff]
    rintro ⟨k, h1, h2, -⟩
    omega
  | succ fuel ih =>
    intro i
    rw [contains_loop]
    by_cases hc : (!(s.entry i).addr_is_empty && addrs_are_equal (s.entry i).device_addr addr)
        = true
    · rw [if_pos hc]
      simp only [true_iff]
      exact ⟨i, le_refl i, by omega, (match_test_iff addr s i).1 hc⟩
    · rw [if_neg hc, ih]
      constructor
      · rintro ⟨k, h1, h2, h3⟩
        exact ⟨k, by omega, by omega, h3⟩
      · rintro ⟨k, h1, h2, h3⟩
        have hki : k ≠ i := by
          rintro rfl
          exact hc ((match_test_iff addr s k).2 h3)
        exact ⟨k, by omega, by omega, h3⟩

/-- An array with fewer occupied entries than entries has an empty entry. -/
theorem exists_empty_entry (s : WhiteList) (hlt : s.occupied_count < s.white_list.length) :
    ∃ j, j < s.white_list.length ∧ (s.entry j).addr_is_empty = true := by
  by_contra hnone
  have hall : ∀ a ∈ s.white_list, (fun e : device_data_t => !e.addr_is_empty) a = true := by
    intro a ha
    obtain ⟨n, hn, rfl⟩ := List.mem_iff_getElem.1 ha
    have hne : ¬ (s.entry n).addr_is_empty = true := fun hc => hnone ⟨n, hn, hc⟩
    rw [entry_eq_getElem s n hn] at hne
    simpa using hne
  have hcount := List.countP_eq_length.2 hall
  rw [occupied_count_eq_countP, hcount] at hlt
  exact lt_irrefl _ hlt

/-- An occupied entry makes the count of occupied entries positive. -/
theorem occupied_count_pos (s : WhiteList) (j : Nat) (hj : j < s.white_list.length)
    (hocc : (s.entry j).addr_is_empty = false) : 0 < s.occupied_count := by
  rw [occupied_count_eq_countP, List.countP_pos_iff]
  refine ⟨s.white_list[j], List.getElem_mem hj, ?_⟩
  rw [entry_eq_getElem s j hj] at hocc
  simp [hocc]

/-- The count of occupied entries never exceeds the capacity. -/
theorem occupied_count_le (s : WhiteList) : s.occupied_count ≤ s.white_list.length := by
  rw [occupied_count_eq_countP]
  exact List.countP_le_length _

/-- Occupying an empty entry raises the count of occupied entries by one. -/
theorem occupied_count_set_occupied (s : WhiteList) (j : Nat) (hj : j < s.white_list.length)
    (hempty : (s.entry j).addr_is_empty = true) (addr : ble_addr_t) (len : Nat) :
    ({ s with
        white_list := s.white_list.set j { device_addr := addr, addr_is_empty := false }
        white_list_len := len } : WhiteList).occupied_count = s.occupied_count + 1 := by
  rw [occupied_count_eq_countP, occupied_count_eq_countP]
  simp only []
  rw [List.countP_set _ _ _ _ hj]
  rw [entry_eq_getElem s j hj] at hempty
  simp [hempty]

/-- Freeing an occupied entry lowers the count of occupied entries by one. -/
theorem occupied_count_set_empty (s : WhiteList) (j : Nat) (hj : j < s.white_list.length)
    (hocc : (s.entry j).addr_is_empty = false) (len : Nat) :
    ({ s with
        white_list := s.white_list.set j { s.entry j with addr_is_empty := true }
        white_list_len := len } : WhiteList).occupied_count + 1 = s.occupied_count := by
  have hpos := occupied_count_pos s j hj hocc
  rw [occupied_count_eq_countP] at hpos
  rw [occupied_count_eq_countP, occupied_count_eq_countP]
  simp only []
  rw [List.countP_set _ _ _ _ hj]
  rw [entry_eq_getElem s j hj] at hocc
  simp [hocc]
  omega

/-- A successful `push_to_white_list` in closed form: on an initialised, consistent
list that is not full, the address goes to the empty entry of lowest index. -/
theorem push_to_white_list_ok (addr : ble_addr_t) (s : WhiteList)
    (hinit : s.wl_is_initialised = true) (hc : s.Consistent)
    (hfree : s.white_list_len ≠ s.white_list_size) :
    ∃ j, j < s.white_list_size ∧ (s.entry j).addr_is_empty = true ∧
      (∀ k, k < j → (s.entry k).addr_is_empty = false) ∧
      push_to_white_list addr s =
        (ESP_OK, { s with
          white_list := s.white_list.set j { device_addr := addr, addr_is_empty := false }
          white_list_len := s.white_list_len + 1 }) := by
  have hle := occupied_count_le s
  have hlt : s.occupied_count < s.white_list.length := by
    have h1 := hc.len_eq
    have h2 := hc.size_eq
    omega
  obtain ⟨j, hj, hempty, hleast⟩ := exists_least_index
    (fun j => (s.entry j).addr_is_empty = true) s.white_list.length (exists_empty_entry s hlt)
  refine ⟨j, by rw [← hc.size_eq]; exact hj, hempty, ?_, ?_⟩
  · intro k hk
    have := hleast k hk
    simpa using this
  · have hloop := push_loop_found addr s j hj hempty s.white_list_size 0 (Nat.zero_le j)
      (by rw [← hc.size_eq]; omega)
      (fun k _ hk => by simpa using hleast k hk)
    have hmod : (s.white_list_len + 1) % 256 = s.white_list_len + 1 := by
      have h1 := hc.len_eq
      have h2 := hc.size_eq
      have h3 := hc.size_lt
      omega
    rw [hmod] at hloop
    unfold push_to_white_list
    rw [if_neg (by simp [hinit]), if_neg hfree]
    exact hloop

/-- `push_to_white_list` keeps the list consistent, whatever its status. -/
theorem push_consistent (addr : ble_addr_t) (s : WhiteList) (hc : s.Consistent) :
    (push_to_white_list addr s).2.Consistent := by
  by_cases hinit : s.wl_is_initialised = true
  · by_cases hfull : s.white_list_len = s.white_list_size
    · simp only [push_to_white_list, hinit, Bool.not_true, Bool.false_eq_true, if_false, hfull,
        if_true]
      exact hc
    · obtain ⟨j, hj, hempty, -, heq⟩ := push_to_white_list_ok addr s hinit hc hfull
      rw [heq]
      have hjl : j < s.white_list.length := by rw [hc.size_eq]; exact hj
      refine ⟨?_, hc.size_lt, ?_⟩
      · simp only [List.length_set]
        exact hc.size_eq
      · rw [occupied_count_set_occupied s j hjl hempty]
        simp only []
        rw [hc.len_eq]
  · simp only [push_to_white_list, hinit, Bool.not_eq_true, Bool.not_false, if_true]
    exact hc

/-- A failing `remove_from_white_list_by_addr` in closed form: on an initialised list
in which no occupied entry holds the address nothing changes. -/
theorem remove_from_white_list_fail (addr : ble_addr_t) (s : WhiteList)
    (hnone : ¬ ∃ k, k < s.white_list_size ∧
      ((s.entry k).addr_is_empty = false ∧ same_addr (s.entry k).device_addr addr)) :
    remove_from_white_list_by_addr addr s = (ESP_FAIL, s) := by
  unfold remove_from_white_list_by_addr
  split_ifs
  · rfl
  · rfl
  · exact remove_loop_none addr s s.white_list_size 0
      (fun k _ hk hm => hnone ⟨k, by omega, hm⟩)

/-- A successful `remove_from_white_list_by_addr` in closed form: on an initialised,
consistent list the occupied entry of lowest index that holds the address is marked
empty. -/
theorem remove_from_white_list_ok (addr : ble_addr_t) (s : WhiteList)
    (hinit : s.wl_is_initialised = true) (hc : s.Consistent)
    (hex : ∃ k, k < s.white_list_size ∧
      ((s.entry k).addr_is_empty = false ∧ same_addr (s.entry k).device_addr addr)) :
    ∃ j, j < s.white_list_size ∧
      ((s.entry j).addr_is_empty = false ∧ same_addr (s.entry j).device_addr addr) ∧
      (∀ k, k < j →
        ¬ ((s.entry k).addr_is_empty = false ∧ same_addr (s.entry k).device_addr addr)) ∧
      0 < s.white_list_len ∧
      remove_from_white_list_by_addr addr s =
        (ESP_OK, { s with
          white_list := s.white_list.set j { s.entry j with addr_is_empty := true }
          white_list_len := s.white_list_len - 1 }) := by
  obtain ⟨j, hj, hmatch, hleast⟩ := exists_least_index
    (fun k => (s.entry k).addr_is_empty = false ∧ same_addr (s.entry k).device_addr addr)
    s.white_list_size hex
  have hjl : j < s.white_list.length := by rw [hc.size_eq]; exact hj
  have hpos : 0 < s.white_list_len := by
    rw [hc.len_eq]
    exact occupied_count_pos s j hjl hmatch.1
  refine ⟨j, hj, hmatch, hleast, hpos, ?_⟩
  have hloop := remove_loop_found addr s j hmatch s.white_list_size 0 (Nat.zero_le j)
    (by omega) (fun k _ hk => hleast k hk)
  have hmod : (s.white_list_len + 255) % 256 = s.white_list_len - 1 := by
    have h1 := hc.len_eq
    have h2 := hc.size_eq
    have h3 := hc.size_lt
    have h4 := occupied_count_le s
    omega
  rw [hmod] at hloop
  have hne : s.white_list_len ≠ 0 := by omega
  unfold remove_from_white_list_by_addr
  rw [if_neg (by simp [hinit]), if_neg hne]
  exact hloop

/-- `remove_from_white_list_by_addr` keeps the list consistent, whatever its status. -/
theorem remove_consistent (addr : ble_addr_t) (s : WhiteList) (hc : s.Consistent) :
    (remove_from_white_list_by_addr addr s).2.Consistent := by
  by_cases hinit : s.wl_is_initialised = true
  · by_cases hex : ∃ k, k < s.white_list_size ∧
        ((s.entry k).addr_is_empty = false ∧ same_addr (s.entry k).device_addr addr)
    · obtain ⟨j, hj, hmatch, -, hpos, heq⟩ := remove_from_white_list_ok addr s hinit hc hex
      rw [heq]
      have hjl : j < s.white_list.length := by rw [hc.size_eq]; exact hj
      refine ⟨?_, hc.size_lt, ?_⟩
      · simp only [List.length_set]
        exact hc.size_eq
      · have hcount := occupied_count_set_empty s j hjl hmatch.1 (s.white_list_len - 1)
        have hlen := hc.len_eq
        simp only [] at hcount ⊢
        omega
    · rw [remove_from_white_list_fail addr s hex]
      exact hc
  · simp only [remove_from_white_list_by_addr, hinit, Bool.not_eq_true, Bool.not_false, if_true]
    exact hc

/-- A successful `init_white_list` in closed form. -/
theorem init_white_list_ok (s : WhiteList) (hinit : s.wl_is_initialised = false)
    (hsize : s.white_list.length = s.white_list_size) (hlt : s.white_list_size < 256) :
    init_white_list s =
      (ESP_OK, { s with wl_is_initialised := true, white_list_len := s.occupied_count }) := by
  simp [init_white_list, hinit, get_white_list_len_eq s hsize hlt]

/-- On an initialised, consistent list `white_list_contains_addr` is the membership
test. -/
theorem white_list_contains_addr_iff (addr : ble_addr_t) (s : WhiteList)
    (hinit : s.wl_is_initialised = true) (hc : s.Consistent) :
    white_list_contains_addr addr s = true ↔
      ∃ k, s.occupied k ∧ same_addr (s.entry k).device_addr addr := by
  simp only [white_list_contains_addr, hinit, Bool.not_true, Bool.false_eq_true, if_false,
    WhiteList.occupied]
  by_cases hzero : s.white_list_len = 0
  · simp only [hzero, if_true, Bool.false_eq_true, false_iff]
    rintro ⟨k, ⟨hk, hocc⟩, -⟩
    have hpos := occupied_count_pos s k (by rw [hc.size_eq]; exact hk) hocc
    rw [← hc.len_eq] at hpos
    omega
  · simp only [hzero, if_false]
    rw [contains_loop_iff]
    constructor
    · rintro ⟨k, -, hk, hocc, hsame⟩
      exact ⟨k, ⟨by omega, hocc⟩, hsame⟩
    · rintro ⟨k, ⟨hk, hocc⟩, hsame⟩
      exact ⟨k, Nat.zero_le k, by omega, hocc, hsame⟩

/-- Every sequence of calls keeps the list consistent. -/
theorem run_calls_consistent (calls : List WlCall) :
    ∀ s : WhiteList, s.Consistent → (run_calls calls s).Consistent := by
  induction calls with
  | nil => intro s hc; exact hc
  | cons c rest ih =>
    intro s hc
    have hstep : (c.run s).Consistent := by
      cases c with
      | push addr => exact push_consistent addr s hc
      | remove addr => exact remove_consistent addr s hc
    exact ih (c.run s) hstep

/-- The count of occupied entries is zero exactly when no slot is occupied. -/
theorem occupied_count_eq_zero_iff (s : WhiteList)
    (hsize : s.white_list.length = s.white_list_size) :
    s.occupied_count = 0 ↔ ∀ i, ¬ s.occupied i := by
  constructor
  · rintro hzero i ⟨hi, hocc⟩
    have hpos := occupied_count_pos s i (by rw [hsize]; exact hi) hocc
    omega
  · intro hnone
    by_contra hne
    have hpos : 0 < s.white_list.countP (fun e => !e.addr_is_empty) := by
      rw [← occupied_count_eq_countP]
      omega
    obtain ⟨a, ha, hpa⟩ := List.countP_pos_iff.1 hpos
    obtain ⟨n, hn, rfl⟩ := List.mem_iff_getElem.1 ha
    apply hnone n
    refine ⟨by rw [← hsize]; exact hn, ?_⟩
    rw [entry_eq_getElem s n hn]
    simpa using hpa

/-- Writing slot `j` leaves the entry read at any other index unchanged. -/
theorem entry_set_ne (s : WhiteList) (j k : Nat) (e : device_data_t) (len : Nat) (hne : k ≠ j) :
    ({ s with white_list := s.white_list.set j e, white_list_len := len } : WhiteList).entry k
      = s.entry k := by
  simp only [WhiteList.entry, List.getD_eq_getElem?_getD]
  rw [List.getElem?_set_ne (Ne.symm hne)]

/-- Writing slot `j` of the array makes it the entry read at index `j`. -/
theorem entry_set_self (s : WhiteList) (j : Nat) (e : device_data_t) (len : Nat)
    (hj : j < s.white_list.length) :
    ({ s with white_list := s.white_list.set j e, white_list_len := len } : WhiteList).entry j
      = e := by
  simp only [WhiteList.entry, List.getD_eq_getElem?_getD]
  rw [List.getElem?_set_self hj]
  rfl

/-! ## The white list: claims C6 to C10 -/

/-- C6. `push_to_white_list` on an initialised list whose count matches its slots:
if `white_list_len` equals the capacity it returns `ESP_FAIL` and changes nothing;
otherwise it returns `ESP_OK`, the address is stored in the empty slot `j` of lowest
index, which becomes occupied, `white_list_len` grows by exactly 1, and every other
slot is unchanged. On an uninitialised list it returns `ESP_FAIL` and changes
nothing. At capacity 1 the first push on an empty list succeeds and a second push
fails. -/
theorem push_to_white_list_spec (addr : ble_addr_t) (s : WhiteList)
    (hinit : s.wl_is_initialised = true) (hc : s.Consistent) :
    (s.white_list_len = s.white_list_size → push_to_white_list addr s = (ESP_FAIL, s)) ∧
    (s.white_list_len ≠ s.white_list_size →
      ∃ j, j < s.white_list_size ∧ (s.entry j).addr_is_empty = true ∧
        (∀ k, k < j → (s.entry k).addr_is_empty = false) ∧
        (push_to_white_list addr s).1 = ESP_OK ∧
        (push_to_white_list addr s).2.entry j = { device_addr := addr, addr_is_empty := false } ∧
        (∀ k, k ≠ j → (push_to_white_list addr s).2.entry k = s.entry k) ∧
        (push_to_white_list addr s).2.white_list_len = s.white_list_len + 1 ∧
        (push_to_white_list addr s).2.white_list_size = s.white_list_size ∧
        (push_to_white_list addr s).2.wl_is_initialised = true) ∧
    (∀ u : WhiteList, u.wl_is_initialised = false → push_to_white_list addr u = (ESP_FAIL, u)) ∧
    (∀ (old : ble_addr_t) (a b : ble_addr_t),
      (push_to_white_list a
        { wl_is_initialised := true, white_list_size := 1, white_list_len := 0,
          white_list := [{ device_addr := old, addr_is_empty := true }] }).1 = ESP_OK ∧
      (push_to_white_list b
        (push_to_white_list a
          { wl_is_initialised := true, white_list_size := 1, white_list_len := 0,
            white_list := [{ device_addr := old, addr_is_empty := true }] }).2).1 = ESP_FAIL) := by
  refine ⟨?_, ?_, ?_, ?_⟩
  · intro hfull
    unfold push_to_white_list
    rw [if_neg (by simp [hinit]), if_pos hfull]
  · intro hfree
    obtain ⟨j, hj, hempty, hleast, heq⟩ := push_to_white_list_ok addr s hinit hc hfree
    refine ⟨j, hj, hempty, hleast, ?_⟩
    rw [heq]
    refine ⟨rfl, ?_, ?_, rfl, rfl, hinit⟩
    · exact entry_set_self s j _ _ (by rw [hc.size_eq]; exact hj)
    · intro k hk
      exact entry_set_ne s j k _ _ hk
  · intro u hu
    simp [push_to_white_list, hu]
  · intro old a b
    simp [push_to_white_list, push_loop, WhiteList.entry, ESP_OK, ESP_FAIL]

/-- Witness of C6: the list of the source after `init_white_list`, and one address. -/
theorem push_to_white_list_spec_witness :
    ((init_white_list boot_white_list).2.white_list_len ≠
        (init_white_list boot_white_list).2.white_list_size) ∧
    (push_to_white_list { type := 1, val := [1, 2, 3, 4, 5, 6] }
      (init_white_list boot_white_list).2).1 = ESP_OK := by
  have hspec := push_to_white_list_spec { type := 1, val := [1, 2, 3, 4, 5, 6] }
    (init_white_list boot_white_list).2 (by decide)
    ⟨by decide, by decide, by decide⟩
  obtain ⟨j, -, -, -, hok, -⟩ := hspec.2.1 (by decide)
  exact ⟨by decide, hok⟩

/-- C7. `remove_from_white_list_by_addr` on an initialised list whose count matches
its slots: if no occupied slot holds an address with the same type and the same six
bytes it returns `ESP_FAIL` and changes nothing; otherwise it returns `ESP_OK`, the
matching slot `j` of lowest index is marked empty, `white_list_len` drops by exactly
1, every other slot is unchanged, and a following push of any address succeeds. An
address of a different type is not equal, whatever its bytes. -/
theorem remove_from_white_list_spec (addr : ble_addr_t) (s : WhiteList)
    (hinit : s.wl_is_initialised = true) (hc : s.Consistent) :
    ((¬ ∃ k, s.occupied k ∧ same_addr (s.entry k).device_addr addr) →
      remove_from_white_list_by_addr addr s = (ESP_FAIL, s)) ∧
    ((∃ k, s.occupied k ∧ same_addr (s.entry k).device_addr addr) →
      ∃ j, s.occupied j ∧ same_addr (s.entry j).device_addr addr ∧
        (∀ k, k < j → ¬ (s.occupied k ∧ same_addr (s.entry k).device_addr addr)) ∧
        (remove_from_white_list_by_addr addr s).1 = ESP_OK ∧
        (remove_from_white_list_by_addr addr s).2.entry j =
          { s.entry j with addr_is_empty := true } ∧
        (∀ k, k ≠ j → (remove_from_white_list_by_addr addr s).2.entry k = s.entry k) ∧
        (remove_from_white_list_by_addr addr s).2.white_list_len + 1 = s.white_list_len ∧
        (remove_from_white_list_by_addr addr s).2.white_list_size = s.white_list_size ∧
        (remove_from_white_list_by_addr addr s).2.wl_is_initialised = true ∧
        (∀ b : ble_addr_t,
          (push_to_white_list b (remove_from_white_list_by_addr addr s).2).1 = ESP_OK)) ∧
    (∀ a b : ble_addr_t, a.type ≠ b.type → addrs_are_equal a b = false) := by
  refine ⟨?_, ?_, ?_⟩
  · intro hnone
    apply remove_from_white_list_fail
    rintro ⟨k, hk, hocc, hsame⟩
    exact hnone ⟨k, ⟨hk, hocc⟩, hsame⟩
  · rintro ⟨k, ⟨hk, hocc⟩, hsame⟩
    obtain ⟨j, hj, hmatch, hleast, hpos, heq⟩ :=
      remove_from_white_list_ok addr s hinit hc ⟨k, hk, hocc, hsame⟩
    have hcons := remove_consistent addr s hc
    have hjl : j < s.white_list.length := by rw [hc.size_eq]; exact hj
    have hpushok : ∀ b : ble_addr_t,
        (push_to_white_list b (remove_from_white_list_by_addr addr s).2).1 = ESP_OK := by
      intro b
      have hinit1 : (remove_from_white_list_by_addr addr s).2.wl_is_initialised = true := by
        rw [heq]
        exact hinit
      have hfree : (remove_from_white_list_by_addr addr s).2.white_list_len ≠
          (remove_from_white_list_by_addr addr s).2.white_list_size := by
        have h1 := hc.len_eq
        have h2 := hc.size_eq
        have h3 := occupied_count_le s
        rw [heq]
        simp only []
        omega
      obtain ⟨i, -, -, -, hpush⟩ := push_to_white_list_ok b _ hinit1 hcons hfree
      rw [hpush]
    refine ⟨j, ⟨hj, hmatch.1⟩, hmatch.2, ?_, ?_⟩
    · rintro m hm ⟨⟨-, hocc1⟩, hsame1⟩
      exact hleast m hm ⟨hocc1, hsame1⟩
    · refine ⟨?_, ?_, ?_, ?_, ?_, ?_, hpushok⟩
      · rw [heq]
      · rw [heq]
        exact entry_set_self s j _ _ hjl
      · intro m hm
        rw [heq]
        exact entry_set_ne s j m _ _ hm
      · rw [heq]
        simp only []
        omega
      · rw [heq]
      · rw [heq]
        exact hinit
  · intro a b hne
    simp [addrs_are_equal, hne]

/-- Witness of C7: the list of the source holding one address, which is removed. -/
theorem remove_from_white_list_spec_witness :
    (∃ k, (push_to_white_list { type := 1, val := [1, 2, 3, 4, 5, 6] }
        (init_white_list boot_white_list).2).2.occupied k) ∧
    (remove_from_white_list_by_addr { type := 1, val := [1, 2, 3, 4, 5, 6] }
      (push_to_white_list { type := 1, val := [1, 2, 3, 4, 5, 6] }
        (init_white_list boot_white_list).2).2).1 = ESP_OK := by
  have hspec := remove_from_white_list_spec { type := 1, val := [1, 2, 3, 4, 5, 6] }
    (push_to_white_list { type := 1, val := [1, 2, 3, 4, 5, 6] }
      (init_white_list boot_white_list).2).2 (by decide)
    ⟨by decide, by decide, by decide⟩
  have hocc : (push_to_white_list { type := 1, val := [1, 2, 3, 4, 5, 6] }
      (init_white_list boot_white_list).2).2.occupied 0 := ⟨by decide, by decide⟩
  obtain ⟨j, -, -, -, hok, -⟩ := hspec.2.1 ⟨0, hocc, same_addr_refl _⟩
  exact ⟨⟨0, hocc⟩, hok⟩

/-- C8, behaviour of the code. On the list as the source initialises it, before
`init_white_list` has run, `white_list_contains_addr` returns `true` for every
address although no slot is occupied: its first `return` yields `ESP_FAIL`, which
is not zero and therefore converts to `true`. -/
theorem contains_true_on_uninitialised_list (addr : ble_addr_t) :
    boot_white_list.wl_is_initialised = false ∧
    white_list_contains_addr addr boot_white_list = true ∧
    ¬ ∃ k, boot_white_list.occupied k ∧ same_addr (boot_white_list.entry k).device_addr addr := by
  refine ⟨rfl, rfl, ?_⟩
  rintro ⟨k, ⟨hk, hocc⟩, -⟩
  have hk0 : k = 0 := by
    have : k < 1 := hk
    omega
  subst hk0
  revert hocc
  decide

/-- C9. Occupancy count invariant. In every state reached from a successful
`init_white_list` by any sequence of `push_to_white_list` and
`remove_from_white_list_by_addr` calls, whatever their status, `white_list_len` is
the number of slots whose `addr_is_empty` flag is false, it does not exceed
`white_list_size`, the array still has `white_list_size` entries, and
`white_list_is_empty` returns true exactly when no slot is occupied. -/
theorem occupancy_count_invariant (s0 : WhiteList) (calls : List WlCall)
    (hok : (init_white_list s0).1 = ESP_OK)
    (hsize : s0.white_list.length = s0.white_list_size) (hlt : s0.white_list_size < 256) :
    (run_calls calls (init_white_list s0).2).white_list_len =
      (run_calls calls (init_white_list s0).2).occupied_count ∧
    (run_calls calls (init_white_list s0).2).white_list_len ≤
      (run_calls calls (init_white_list s0).2).white_list_size ∧
    (run_calls calls (init_white_list s0).2).white_list.length =
      (run_calls calls (init_white_list s0).2).white_list_size ∧
    (white_list_is_empty (run_calls calls (init_white_list s0).2) = true ↔
      ∀ i, ¬ (run_calls calls (init_white_list s0).2).occupied i) := by
  have huninit : s0.wl_is_initialised = false := by
    by_contra hne
    have htrue : s0.wl_is_initialised = true := by simpa using hne
    simp [init_white_list, htrue, ESP_OK, ESP_FAIL] at hok
  have hstart : (init_white_list s0).2.Consistent := by
    rw [init_white_list_ok s0 huninit hsize hlt]
    exact ⟨hsize, hlt, rfl⟩
  have hc := run_calls_consistent calls _ hstart
  refine ⟨hc.len_eq, ?_, hc.size_eq, ?_⟩
  · rw [hc.len_eq, ← hc.size_eq]
    exact occupied_count_le _
  · rw [← occupied_count_eq_zero_iff _ hc.size_eq, ← hc.len_eq]
    simp [white_list_is_empty]

/-- Witness of C9: the list of the source, a push, a second push that fails and a
removal. -/
theorem occupancy_count_invariant_witness :
    (init_white_list boot_white_list).1 = ESP_OK ∧
    (run_calls
      [WlCall.push { type := 1, val := [1, 2, 3, 4, 5, 6] },
        WlCall.push { type := 0, val := [9, 9, 9, 9, 9, 9] },
        WlCall.remove { type := 1, val := [1, 2, 3, 4, 5, 6] }]
      (init_white_list boot_white_list).2).white_list_len =
    (run_calls
      [WlCall.push { type := 1, val := [1, 2, 3, 4, 5, 6] },
        WlCall.push { type := 0, val := [9, 9, 9, 9, 9, 9] },
        WlCall.remove { type := 1, val := [1, 2, 3, 4, 5, 6] }]
      (init_white_list boot_white_list).2).occupied_count :=
  ⟨by decide,
    (occupancy_count_invariant boot_white_list
      [WlCall.push { type := 1, val := [1, 2, 3, 4, 5, 6] },
        WlCall.push { type := 0, val := [9, 9, 9, 9, 9, 9] },
        WlCall.remove { type := 1, val := [1, 2, 3, 4, 5, 6] }]
      (by decide) (by decide) (by decide)).1⟩

/-- C10. The allow-list survives suspend and resume. Starting from an initialised
list whose count matches its slots, after a resume (the flag and the count are
reset, the array keeps its content) `init_white_list` returns `ESP_OK`, leaves every
slot unchanged and sets `white_list_len` to the number of occupied slots; the
resulting state is the state before the suspend, so `white_list_contains_addr`
answers as before for every address and `white_list_is_empty` as well. -/
theorem white_list_survives_resume (s : WhiteList) (hinit : s.wl_is_initialised = true)
    (hc : s.Consistent) :
    (resume s).white_list = s.white_list ∧
    (init_white_list (resume s)).1 = ESP_OK ∧
    (init_white_list (resume s)).2.white_list = s.white_list ∧
    (init_white_list (resume s)).2.white_list_len = s.occupied_count ∧
    (init_white_list (resume s)).2 = s ∧
    (∀ addr : ble_addr_t,
      white_list_contains_addr addr (init_white_list (resume s)).2 =
        white_list_contains_addr addr s) ∧
    white_list_is_empty (init_white_list (resume s)).2 = white_list_is_empty s := by
  have hres : init_white_list (resume s) =
      (ESP_OK, { resume s with
        wl_is_initialised := true, white_list_len := (resume s).occupied_count }) :=
    init_white_list_ok (resume s) rfl hc.size_eq hc.size_lt
  have hcount : (resume s).occupied_count = s.occupied_count := rfl
  have hsame : (init_white_list (resume s)).2 = s := by
    rw [hres, hcount, ← hc.len_eq]
    cases s
    simp only [resume] at hinit ⊢
    rw [hinit]
  refine ⟨rfl, ?_, ?_, ?_, hsame, ?_, ?_⟩
  · rw [hres]
  · rw [hsame]
  · rw [hsame]
    exact hc.len_eq
  · intro addr
    rw [hsame]
  · rw [hsame]

/-- Witness of C10: the list of the source holding one address. -/
theorem white_list_survives_resume_witness :
    (init_white_list (resume (push_to_white_list { type := 1, val := [1, 2, 3, 4, 5, 6] }
      (init_white_list boot_white_list).2).2)).1 = ESP_OK ∧
    white_list_contains_addr { type := 1, val := [1, 2, 3, 4, 5, 6] }
      (init_white_list (resume (push_to_white_list { type := 1, val := [1, 2, 3, 4, 5, 6] }
        (init_white_list boot_white_list).2).2)).2 = true := by
  have hspec := white_list_survives_resume
    (push_to_white_list { type := 1, val := [1, 2, 3, 4, 5, 6] }
      (init_white_list boot_white_list).2).2 (by decide) ⟨by decide, by decide, by decide⟩
  refine ⟨hspec.2.1, ?_⟩
  rw [hspec.2.2.2.2.2.1]
  decide

/-! ## The white list: claim C11 -/

/-- A list that is not empty by its count has an occupied slot. -/
theorem exists_occupied_of_len_pos (s : WhiteList) (hc : s.Consistent)
    (hlen : s.white_list_len ≠ 0) : ∃ i, s.occupied i := by
  by_contra hnone
  have hall : ∀ i, ¬ s.occupied i := fun i hi => hnone ⟨i, hi⟩
  have hzero := (occupied_count_eq_zero_iff s hc.size_eq).2 hall
  rw [← hc.len_eq] at hzero
  exact hlen hzero

/-- C11. `get_white_list_addr` returns an occupied entry. On an initialised list of
capacity 1 whose count matches its slots, it returns `ESP_FAIL` if and only if the
list is empty (equivalently, no slot is occupied), and then the output is
untouched; otherwise it returns `ESP_OK` and writes the address of slot 0, which is
occupied, so that `white_list_contains_addr` is true for the address written. -/
theorem get_white_list_addr_spec (out : ble_addr_t) (s : WhiteList)
    (hinit : s.wl_is_initialised = true) (hc : s.Consistent)
    (hcap : s.white_list_size = 1) :
    ((get_white_list_addr out s).1 = ESP_FAIL ↔ white_list_is_empty s = true) ∧
    (white_list_is_empty s = true ↔ ∀ i, ¬ s.occupied i) ∧
    ((get_white_list_addr out s).1 = ESP_FAIL → (get_white_list_addr out s).2 = out) ∧
    ((get_white_list_addr out s).1 ≠ ESP_FAIL →
      (get_white_list_addr out s).1 = ESP_OK ∧
      s.occupied 0 ∧
      (get_white_list_addr out s).2 = (s.entry 0).device_addr ∧
      white_list_contains_addr (get_white_list_addr out s).2 s = true) := by
  have hempty : white_list_is_empty s = true ↔ ∀ i, ¬ s.occupied i := by
    rw [← occupied_count_eq_zero_iff s hc.size_eq, ← hc.len_eq]
    simp [white_list_is_empty]
  by_cases hlen : s.white_list_len = 0
  · have hget : get_white_list_addr out s = (ESP_FAIL, out) := by
      unfold get_white_list_addr
      rw [if_neg (by simp [hinit]), if_pos hlen]
    rw [hget]
    refine ⟨?_, hempty, fun _ => rfl, fun hne => absurd rfl hne⟩
    simp [white_list_is_empty, hlen]
  · have hget : get_white_list_addr out s = (ESP_OK, (s.entry 0).device_addr) := by
      unfold get_white_list_addr
      rw [if_neg (by simp [hinit]), if_neg hlen]
    have hocc : s.occupied 0 := by
      obtain ⟨i, hi⟩ := exists_occupied_of_len_pos s hc hlen
      have hi0 : i = 0 := by
        have := hi.1
        omega
      rw [← hi0]
      exact hi
    rw [hget]
    refine ⟨?_, hempty, ?_, fun _ => ⟨rfl, hocc, rfl, ?_⟩⟩
    · simp [white_list_is_empty, hlen, ESP_OK, ESP_FAIL]
    · intro hfail
      simp [ESP_OK, ESP_FAIL] at hfail
    · exact (white_list_contains_addr_iff _ s hinit hc).2 ⟨0, hocc, same_addr_refl _⟩

/-- Witness of C11: the list of the source holding one address. -/
theorem get_white_list_addr_spec_witness :
    (get_white_list_addr { type := 0, val := [] }
      (push_to_white_list { type := 1, val := [1, 2, 3, 4, 5, 6] }
        (init_white_list boot_white_list).2).2).1 ≠ ESP_FAIL ∧
    white_list_contains_addr
      (get_white_list_addr { type := 0, val := [] }
        (push_to_white_list { type := 1, val := [1, 2, 3, 4, 5, 6] }
          (init_white_list boot_white_list).2).2).2
      (push_to_white_list { type := 1, val := [1, 2, 3, 4, 5, 6] }
        (init_white_list boot_white_list).2).2 = true := by
  have hspec := get_white_list_addr_spec { type := 0, val := [] }
    (push_to_white_list { type := 1, val := [1, 2, 3, 4, 5, 6] }
      (init_white_list boot_white_list).2).2 (by decide) ⟨by decide, by decide, by decide⟩
    (by decide)
  have hne : (get_white_list_addr { type := 0, val := [] }
      (push_to_white_list { type := 1, val := [1, 2, 3, 4, 5, 6] }
        (init_white_list boot_white_list).2).2).1 ≠ ESP_FAIL := by decide
  exact ⟨hne, (hspec.2.2.2 hne).2.2.2⟩

/-! ## Lemmas on the mode controller -/

/-- The manufacturer data advertised in registration mode: the Register frame. -/
theorem register_frame (h : Host) :
    ((form_packet h (some [0, 0]) REG_HEADER none 0).2.getD []).take HEADER_SIZE
      = [0x00, 0x01] := by
  rw [form_packet_bytes]
  simp [REG_HEADER, HEADER_SIZE]

/-- The manufacturer data advertised in deletion mode: the Delete frame. -/
theorem delete_frame (h : Host) :
    ((form_packet h (some [0, 0]) (DEL_HEADER % 256) none 0).2.getD []).take HEADER_SIZE
      = [0x00, 0x02] := by
  rw [form_packet_bytes]
  simp [DEL_HEADER, HEADER_SIZE]

/-- A two-byte frame with a valid tag decodes to that tag; the output buffer is not
written. -/
theorem open_header_only_frame (h : Host) (dest_header : Nat) (dest_buff : Option (List Nat))
    (tag : Nat) (htag : tag = REG_HEADER ∨ tag = DEL_HEADER ∨ tag = DATA_HEADER) :
    open_packet h dest_header dest_buff (some [0x00, tag]) 2 =
      { ret := 0, dest_header := tag, dest_buff := dest_buff } := by
  rw [open_packet_closed h dest_header dest_buff [0x00, tag] 2 (by decide) (by simp)]
  have hw : wire_header [0x00, tag] = tag := by simp [wire_header]
  rw [hw]
  have hvalid : ¬ ((2 : Nat) < 2 ∨
      (tag ≠ REG_HEADER ∧ tag ≠ DEL_HEADER ∧ tag ≠ DATA_HEADER)) := by
    rcases htag with rfl | rfl | rfl <;> simp [REG_HEADER, DEL_HEADER, DATA_HEADER]
  rw [if_neg hvalid]
  cases dest_buff <;> simp

/-- No event of the radio stack changes the mode. -/
theorem ble_gap_event_mode (conn_desc : ble_gap_conn_desc) (event : GapEvent) (d : Device) :
    (ble_gap_event conn_desc event d).2.g_device_mode = d.g_device_mode := by
  cases event with
  | BLE_GAP_EVENT_ADV_COMPLETE =>
    unfold ble_gap_event
    simp only []
    split_ifs <;> simp [Device.emit]
  | BLE_GAP_EVENT_CONNECT status conn_handle =>
    unfold ble_gap_event
    simp only []
    split_ifs <;> simp [Device.emit]
  | BLE_GAP_EVENT_DISCONNECT reason => rfl
  | other => rfl

/-- A successful connect in registration mode, in closed form. -/
theorem connect_in_registration (conn_desc : ble_gap_conn_desc) (conn_handle : Nat) (d : Device)
    (hmode : d.g_device_mode = g_device_mode_t.REGISTRATION_MODE) :
    ble_gap_event conn_desc (GapEvent.BLE_GAP_EVENT_CONNECT 0 conn_handle) d =
      (0, { d with
        wl := (push_to_white_list conn_desc.peer_id_addr d.wl).2
        trace := d.trace ++
          [DeviceAction.ble_gap_adv_stop, DeviceAction.led_start_blink 100 100,
            DeviceAction.ble_gap_terminate conn_handle BLE_ERR_REM_USER_CONN_TERM] }) := by
  simp [ble_gap_event, Device.emit, hmode]

/-- A successful connect in deletion mode, in closed form. -/
theorem connect_in_deletion (conn_desc : ble_gap_conn_desc) (conn_handle : Nat) (d : Device)
    (hmode : d.g_device_mode = g_device_mode_t.DELETION_MODE) :
    ble_gap_event conn_desc (GapEvent.BLE_GAP_EVENT_CONNECT 0 conn_handle) d =
      (0, { d with
        wl := (remove_from_white_list_by_addr conn_desc.peer_id_addr d.wl).2
        trace := d.trace ++
          (DeviceAction.ble_gap_adv_stop ::
            ((if (remove_from_white_list_by_addr conn_desc.peer_id_addr d.wl).1 = ESP_OK then
                [DeviceAction.led_start_blink 700 700]
              else []) ++
              [DeviceAction.ble_gap_terminate conn_handle BLE_ERR_REM_USER_CONN_TERM])) }) := by
  by_cases hok : (remove_from_white_list_by_addr conn_desc.peer_id_addr d.wl).1 = ESP_OK
  · simp [ble_gap_event, Device.emit, hmode, hok]
  · simp [ble_gap_event, Device.emit, hmode, hok]

/-- The exit branch of `on_medium_button_press`, in closed form. -/
theorem medium_press_in_registration (h : Host) (d : Device)
    (hmode : d.g_device_mode = g_device_mode_t.REGISTRATION_MODE) :
    on_medium_button_press h d =
      { d with
        g_device_mode := g_device_mode_t.UNSPECIFIED_MODE
        trace := d.trace ++
          ((if white_list_is_empty d.wl = false then
              [DeviceAction.esp_sleep_enable_timer_wakeup DEEP_SLEEP_CYCLE_TIME]
            else []) ++
            [DeviceAction.led_turn_off, DeviceAction.esp_deep_sleep_start]) } := by
  unfold on_medium_button_press
  rw [if_neg (by rw [hmode]; decide), if_pos hmode]
  cases hempty : white_list_is_empty d.wl <;> simp [Device.emit]

/-- The exit branch of `on_long_button_press`, in closed form. -/
theorem long_press_in_deletion (h : Host) (wl_addr0 : ble_addr_t) (d : Device)
    (hmode : d.g_device_mode = g_device_mode_t.DELETION_MODE) :
    on_long_button_press h wl_addr0 d =
      { d with
        g_device_mode := g_device_mode_t.UNSPECIFIED_MODE
        trace := d.trace ++
          ((if white_list_is_empty d.wl = false then
              [DeviceAction.esp_sleep_enable_timer_wakeup DEEP_SLEEP_CYCLE_TIME]
            else []) ++
            [DeviceAction.led_turn_off, DeviceAction.esp_deep_sleep_start]) } := by
  unfold on_long_button_press
  rw [if_neg (by rw [hmode]; simp), if_pos hmode]
  cases hempty : white_list_is_empty d.wl <;> simp [Device.emit]

/-- A medium press in deletion mode does nothing. -/
theorem medium_press_in_deletion (h : Host) (d : Device)
    (hmode : d.g_device_mode = g_device_mode_t.DELETION_MODE) :
    on_medium_button_press h d = d := by
  unfold on_medium_button_press
  rw [if_neg (by rw [hmode]; decide), if_neg (by rw [hmode]; decide)]

/-- A long press in registration mode does nothing. -/
theorem long_press_in_registration (h : Host) (wl_addr0 : ble_addr_t) (d : Device)
    (hmode : d.g_device_mode = g_device_mode_t.REGISTRATION_MODE) :
    on_long_button_press h wl_addr0 d = d := by
  unfold on_long_button_press
  rw [if_neg (by rw [hmode]; simp), if_neg (by rw [hmode]; decide)]

/-- With one slot, no two occupied slots hold the same address. -/
theorem at_most_once_of_capacity_one (s : WhiteList) (addr : ble_addr_t)
    (hcap : s.white_list_size = 1) : s.at_most_once addr := by
  intro i j hi _ hj _
  have h1 := hi.1
  have h2 := hj.1
  omega

/-- The entry branch of `on_medium_button_press`, in closed form. -/
theorem medium_press_in_idle (h : Host) (d : Device)
    (hmode : d.g_device_mode = g_device_mode_t.UNSPECIFIED_MODE) :
    on_medium_button_press h d =
      { d with
        g_device_mode := g_device_mode_t.REGISTRATION_MODE
        trace := d.trace ++
          [DeviceAction.led_turn_on,
            DeviceAction.ble_gap_adv_set_fields { uuids16 := [0x1809], mfg_data := [0x00, 0x01] },
            DeviceAction.ble_gap_adv_start d.g_ble_addr_type none BLE_HS_FOREVER
              { conn_mode := ble_gap_conn_mode.BLE_GAP_CONN_MODE_UND
                disc_mode := ble_gap_disc_mode.BLE_GAP_DISC_MODE_GEN
                itvl_min := 0x10, itvl_max := 0x20, high_duty_cycle := 0 }] } := by
  unfold on_medium_button_press
  rw [if_pos (by rw [hmode]; decide)]
  simp only [register_frame, Device.emit, List.append_assoc, List.singleton_append,
    List.cons_append, List.nil_append]

/-- The entry branch of `on_long_button_press`, in closed form. -/
theorem long_press_in_idle (h : Host) (wl_addr0 : ble_addr_t) (d : Device)
    (hmode : d.g_device_mode = g_device_mode_t.UNSPECIFIED_MODE)
    (hempty : white_list_is_empty d.wl = false) :
    on_long_button_press h wl_addr0 d =
      { d with
        g_device_mode := g_device_mode_t.DELETION_MODE
        trace := d.trace ++
          [DeviceAction.led_turn_on,
            DeviceAction.ble_gap_adv_set_fields { uuids16 := [0x1809], mfg_data := [0x00, 0x02] },
            DeviceAction.ble_gap_adv_start d.g_ble_addr_type
              (some (get_white_list_addr wl_addr0 d.wl).2) BLE_HS_FOREVER
              { conn_mode := ble_gap_conn_mode.BLE_GAP_CONN_MODE_UND
                disc_mode := ble_gap_disc_mode.BLE_GAP_DISC_MODE_NON
                itvl_min := 0x10, itvl_max := 0x20, high_duty_cycle := 0 }] } := by
  unfold on_long_button_press
  rw [if_pos (by rw [hmode, hempty]; simp)]
  simp only [delete_frame, Device.emit, List.append_assoc, List.singleton_append,
    List.cons_append, List.nil_append]

/-- A long press in Idle with an empty white list does nothing. -/
theorem long_press_in_idle_empty (h : Host) (wl_addr0 : ble_addr_t) (d : Device)
    (hmode : d.g_device_mode = g_device_mode_t.UNSPECIFIED_MODE)
    (hempty : white_list_is_empty d.wl = true) :
    on_long_button_press h wl_addr0 d = d := by
  unfold on_long_button_press
  rw [if_neg (by rw [hempty]; simp), if_neg (by rw [hmode]; decide)]

/-- `push_to_white_list` on a full list fails and changes nothing. -/
theorem push_to_white_list_full (addr : ble_addr_t) (s : WhiteList)
    (hfull : s.white_list_len = s.white_list_size) :
    push_to_white_list addr s = (ESP_FAIL, s) := by
  unfold push_to_white_list
  split_ifs <;> rfl

/-- After a successful push the address is contained. -/
theorem contains_after_push (addr : ble_addr_t) (s : WhiteList)
    (hinit : s.wl_is_initialised = true) (hc : s.Consistent)
    (hfree : s.white_list_len ≠ s.white_list_size) :
    white_list_contains_addr addr (push_to_white_list addr s).2 = true := by
  have hcons := push_consistent addr s hc
  obtain ⟨j, hj, -, -, heq⟩ := push_to_white_list_ok addr s hinit hc hfree
  have hinit1 : (push_to_white_list addr s).2.wl_is_initialised = true := by
    rw [heq]
    exact hinit
  rw [white_list_contains_addr_iff addr _ hinit1 hcons]
  have hentry : (push_to_white_list addr s).2.entry j =
      { device_addr := addr, addr_is_empty := false } := by
    rw [heq]
    exact entry_set_self s j _ _ (by rw [hc.size_eq]; exact hj)
  have hsize : (push_to_white_list addr s).2.white_list_size = s.white_list_size := by
    rw [heq]
  refine ⟨j, ⟨by rw [hsize]; exact hj, by rw [hentry]⟩, ?_⟩
  rw [hentry]
  exact same_addr_refl addr

/-- On an initialised, consistent list `remove_from_white_list_by_addr` succeeds
exactly when the address is contained. -/
theorem remove_ok_iff_contains (addr : ble_addr_t) (s : WhiteList)
    (hinit : s.wl_is_initialised = true) (hc : s.Consistent) :
    (remove_from_white_list_by_addr addr s).1 = ESP_OK ↔
      white_list_contains_addr addr s = true := by
  rw [white_list_contains_addr_iff addr s hinit hc]
  by_cases hex : ∃ k, k < s.white_list_size ∧
      ((s.entry k).addr_is_empty = false ∧ same_addr (s.entry k).device_addr addr)
  · obtain ⟨j, -, -, -, -, heq⟩ := remove_from_white_list_ok addr s hinit hc hex
    obtain ⟨k, hk, hocc, hsame⟩ := hex
    rw [heq]
    exact ⟨fun _ => ⟨k, ⟨hk, hocc⟩, hsame⟩, fun _ => rfl⟩
  · rw [remove_from_white_list_fail addr s hex]
    constructor
    · intro hfail
      simp [ESP_OK, ESP_FAIL] at hfail
    · rintro ⟨k, ⟨hk, hocc⟩, hsame⟩
      exact absurd ⟨k, hk, hocc, hsame⟩ hex

/-- After `remove_from_white_list_by_addr` an address that no two occupied slots held
is not contained. -/
theorem not_contains_after_remove (addr : ble_addr_t) (s : WhiteList)
    (hinit : s.wl_is_initialised = true) (hc : s.Consistent) (hone : s.at_most_once addr) :
    white_list_contains_addr addr (remove_from_white_list_by_addr addr s).2 = false := by
  rw [← Bool.not_eq_true]
  by_cases hex : ∃ k, k < s.white_list_size ∧
      ((s.entry k).addr_is_empty = false ∧ same_addr (s.entry k).device_addr addr)
  · have hcons := remove_consistent addr s hc
    obtain ⟨j, hj, hmatch, -, -, heq⟩ := remove_from_white_list_ok addr s hinit hc hex
    have hjl : j < s.white_list.length := by rw [hc.size_eq]; exact hj
    have hinit1 : (remove_from_white_list_by_addr addr s).2.wl_is_initialised = true := by
      rw [heq]
      exact hinit
    rw [white_list_contains_addr_iff addr _ hinit1 hcons]
    rintro ⟨k, ⟨hk, hocc⟩, hsame⟩
    rw [heq] at hk hocc hsame
    by_cases hkj : k = j
    · subst hkj
      rw [entry_set_self s k _ _ hjl] at hocc
      simp at hocc
    · rw [entry_set_ne s j k _ _ hkj] at hocc hsame
      exact hkj (hone k j ⟨hk, hocc⟩ hsame ⟨hj, hmatch.1⟩ hmatch.2)
  · rw [remove_from_white_list_fail addr s hex, white_list_contains_addr_iff addr s hinit hc]
    rintro ⟨k, ⟨hk, hocc⟩, hsame⟩
    exact hex ⟨k, hk, hocc, hsame⟩

/-- A step from `REGISTRATION_MODE` ends in `UNSPECIFIED_MODE` if the event is a
medium press and in `REGISTRATION_MODE` otherwise. -/
theorem step_from_registration (h : Host) (wl_addr0 : ble_addr_t) (ev : Event) (d : Device)
    (hreg : d.g_device_mode = g_device_mode_t.REGISTRATION_MODE) :
    (ev = Event.medium_press ∧
      (step h wl_addr0 ev d).g_device_mode = g_device_mode_t.UNSPECIFIED_MODE) ∨
    (ev ≠ Event.medium_press ∧
      (step h wl_addr0 ev d).g_device_mode = g_device_mode_t.REGISTRATION_MODE) := by
  cases ev with
  | short_press =>
    right
    exact ⟨by decide, hreg⟩
  | medium_press =>
    left
    refine ⟨rfl, ?_⟩
    simp only [step]
    rw [medium_press_in_registration h d hreg]
  | long_press =>
    right
    refine ⟨by decide, ?_⟩
    simp only [step]
    rw [long_press_in_registration h wl_addr0 d hreg, hreg]
  | gap conn_desc event =>
    right
    refine ⟨by simp, ?_⟩
    simp only [step]
    rw [ble_gap_event_mode, hreg]

/-- A step from `DELETION_MODE` ends in `UNSPECIFIED_MODE` if the event is a long
press and in `DELETION_MODE` otherwise. -/
theorem step_from_deletion (h : Host) (wl_addr0 : ble_addr_t) (ev : Event) (d : Device)
    (hdel : d.g_device_mode = g_device_mode_t.DELETION_MODE) :
    (ev = Event.long_press ∧
      (step h wl_addr0 ev d).g_device_mode = g_device_mode_t.UNSPECIFIED_MODE) ∨
    (ev ≠ Event.long_press ∧
      (step h wl_addr0 ev d).g_device_mode = g_device_mode_t.DELETION_MODE) := by
  cases ev with
  | short_press =>
    right
    exact ⟨by decide, hdel⟩
  | medium_press =>
    right
    refine ⟨by decide, ?_⟩
    simp only [step]
    rw [medium_press_in_deletion h d hdel, hdel]
  | long_press =>
    left
    refine ⟨rfl, ?_⟩
    simp only [step]
    rw [long_press_in_deletion h wl_addr0 d hdel]
  | gap conn_desc event =>
    right
    refine ⟨by simp, ?_⟩
    simp only [step]
    rw [ble_gap_event_mode, hdel]

/-- A step from `REGISTRATION_MODE` reaches `UNSPECIFIED_MODE` exactly when the event
is a medium press. -/
theorem step_from_registration_idle_iff (h : Host) (wl_addr0 : ble_addr_t) (ev : Event)
    (d : Device) (hreg : d.g_device_mode = g_device_mode_t.REGISTRATION_MODE) :
    (step h wl_addr0 ev d).g_device_mode = g_device_mode_t.UNSPECIFIED_MODE ↔
      ev = Event.medium_press := by
  rcases step_from_registration h wl_addr0 ev d hreg with ⟨hev, hmode⟩ | ⟨hev, hmode⟩
  · exact ⟨fun _ => hev, fun _ => hmode⟩
  · rw [hmode]
    exact ⟨fun hc => absurd hc (by decide), fun hc => absurd hc hev⟩

/-- A step from `DELETION_MODE` reaches `UNSPECIFIED_MODE` exactly when the event is a
long press. -/
theorem step_from_deletion_idle_iff (h : Host) (wl_addr0 : ble_addr_t) (ev : Event)
    (d : Device) (hdel : d.g_device_mode = g_device_mode_t.DELETION_MODE) :
    (step h wl_addr0 ev d).g_device_mode = g_device_mode_t.UNSPECIFIED_MODE ↔
      ev = Event.long_press := by
  rcases step_from_deletion h wl_addr0 ev d hdel with ⟨hev, hmode⟩ | ⟨hev, hmode⟩
  · exact ⟨fun _ => hev, fun _ => hmode⟩
  · rw [hmode]
    exact ⟨fun hc => absurd hc (by decide), fun hc => absurd hc hev⟩

/-- Events other than a medium press keep the controller in `REGISTRATION_MODE`. -/
theorem run_events_stays_in_registration (h : Host) (wl_addr0 : ble_addr_t)
    (events : List Event) :
    ∀ d : Device, d.g_device_mode = g_device_mode_t.REGISTRATION_MODE →
      (∀ ev, ev ∈ events → ev ≠ Event.medium_press) →
      (run_events h wl_addr0 events d).g_device_mode = g_device_mode_t.REGISTRATION_MODE := by
  induction events with
  | nil => intro d hreg _; exact hreg
  | cons ev rest ih =>
    intro d hreg hnone
    have hev : ev ≠ Event.medium_press := hnone ev (List.mem_cons_self ev rest)
    have hstep : (step h wl_addr0 ev d).g_device_mode = g_device_mode_t.REGISTRATION_MODE := by
      rcases step_from_registration h wl_addr0 ev d hreg with ⟨hc, -⟩ | ⟨-, hmode⟩
      · exact absurd hc hev
      · exact hmode
    exact ih (step h wl_addr0 ev d) hstep
      (fun e he => hnone e (List.mem_cons_of_mem ev he))

/-- Events other than a long press keep the controller in `DELETION_MODE`. -/
theorem run_events_stays_in_deletion (h : Host) (wl_addr0 : ble_addr_t)
    (events : List Event) :
    ∀ d : Device, d.g_device_mode = g_device_mode_t.DELETION_MODE →
      (∀ ev, ev ∈ events → ev ≠ Event.long_press) →
      (run_events h wl_addr0 events d).g_device_mode = g_device_mode_t.DELETION_MODE := by
  induction events with
  | nil => intro d hdel _; exact hdel
  | cons ev rest ih =>
    intro d hdel hnone
    have hev : ev ≠ Event.long_press := hnone ev (List.mem_cons_self ev rest)
    have hstep : (step h wl_addr0 ev d).g_device_mode = g_device_mode_t.DELETION_MODE := by
      rcases step_from_deletion h wl_addr0 ev d hdel with ⟨hc, -⟩ | ⟨-, hmode⟩
      · exact absurd hc hev
      · exact hmode
    exact ih (step h wl_addr0 ev d) hstep
      (fun e he => hnone e (List.mem_cons_of_mem ev he))

/-! ## The mode controller: claims C12 to C20 -/

/-- C12. Entering registration. From mode Idle (`UNSPECIFIED_MODE`), for every
white list, `on_medium_button_press` sets the mode to `REGISTRATION_MODE`, leaves
the white list unchanged, and makes exactly three calls: it turns the LED on, sets
advertising fields whose manufacturer data is the frame `[0x00, 0x01]`, and starts
undirected, general-discoverable advertising without a peer address and without
time limit. It does not suspend. `open_packet` decodes the frame to `REG_HEADER`
with no payload. -/
theorem medium_press_enters_registration (h : Host) (d : Device)
    (hmode : d.g_device_mode = g_device_mode_t.UNSPECIFIED_MODE)
    (dest_header : Nat) (dest_buff : Option (List Nat)) :
    on_medium_button_press h d =
      { d with
        g_device_mode := g_device_mode_t.REGISTRATION_MODE
        trace := d.trace ++
          [DeviceAction.led_turn_on,
            DeviceAction.ble_gap_adv_set_fields { uuids16 := [0x1809], mfg_data := [0x00, 0x01] },
            DeviceAction.ble_gap_adv_start d.g_ble_addr_type none BLE_HS_FOREVER
              { conn_mode := ble_gap_conn_mode.BLE_GAP_CONN_MODE_UND
                disc_mode := ble_gap_disc_mode.BLE_GAP_DISC_MODE_GEN
                itvl_min := 0x10, itvl_max := 0x20, high_duty_cycle := 0 }] } ∧
    (on_medium_button_press h d).wl = d.wl ∧
    DeviceAction.esp_deep_sleep_start ∉ (on_medium_button_press h d).trace.drop d.trace.length ∧
    open_packet h dest_header dest_buff (some [0x00, 0x01]) 2 =
      { ret := 0, dest_header := REG_HEADER, dest_buff := dest_buff } := by
  have hstep := medium_press_in_idle h d hmode
  refine ⟨hstep, ?_, ?_, open_header_only_frame h dest_header dest_buff REG_HEADER (Or.inl rfl)⟩
  · rw [hstep]
  · rw [hstep]
    simp

/-- Witness of C12: the device after boot, with the white list of the source. -/
theorem medium_press_enters_registration_witness :
    (on_medium_button_press Host.little
      { g_device_mode := g_device_mode_t.UNSPECIFIED_MODE, g_ble_addr_type := 0,
        wl := (init_white_list boot_white_list).2, trace := [] }).g_device_mode
      = g_device_mode_t.REGISTRATION_MODE := by
  have hspec := medium_press_enters_registration Host.little
    { g_device_mode := g_device_mode_t.UNSPECIFIED_MODE, g_ble_addr_type := 0,
      wl := (init_white_list boot_white_list).2, trace := [] } rfl 0 none
  rw [hspec.1]

/-- C13, counterexample. In `REGISTRATION_MODE`, with the white list of the source,
a connect event with status 0 leaves the mode at `REGISTRATION_MODE`: it does not
become `UNSPECIFIED_MODE`. -/
theorem connect_success_stays_in_registration :
    (ble_gap_event
      { our_id_addr := { type := 0, val := [6, 5, 4, 3, 2, 1] },
        peer_id_addr := { type := 1, val := [1, 2, 3, 4, 5, 6] } }
      (GapEvent.BLE_GAP_EVENT_CONNECT 0 1)
      { g_device_mode := g_device_mode_t.REGISTRATION_MODE, g_ble_addr_type := 0,
        wl := (init_white_list boot_white_list).2, trace := [] }).2.g_device_mode
      = g_device_mode_t.REGISTRATION_MODE ∧
    (ble_gap_event
      { our_id_addr := { type := 0, val := [6, 5, 4, 3, 2, 1] },
        peer_id_addr := { type := 1, val := [1, 2, 3, 4, 5, 6] } }
      (GapEvent.BLE_GAP_EVENT_CONNECT 0 1)
      { g_device_mode := g_device_mode_t.REGISTRATION_MODE, g_ble_addr_type := 0,
        wl := (init_white_list boot_white_list).2, trace := [] }).2.g_device_mode
      ≠ g_device_mode_t.UNSPECIFIED_MODE := by
  constructor <;> decide

/-- C13, amended. A successful connect does not change the mode: for every state,
in particular one whose mode is `REGISTRATION_MODE` or `DELETION_MODE`, after
`ble_gap_event` handles a connect event with status 0 the mode is still that mode.
The mode becomes `UNSPECIFIED_MODE` only at the matching press that follows: after
the connect in `REGISTRATION_MODE`, every sequence of events without a medium press
(short and long presses, advertising complete, connects with any status,
disconnects, other radio events) leaves the mode at `REGISTRATION_MODE`, and the
next event reaches `UNSPECIFIED_MODE` if and only if it is a medium press; the same
holds in `DELETION_MODE` with the long press. -/
theorem connect_success_keeps_mode (h : Host) (wl_addr0 : ble_addr_t)
    (conn_desc : ble_gap_conn_desc) (conn_handle : Nat) (d : Device) :
    (ble_gap_event conn_desc (GapEvent.BLE_GAP_EVENT_CONNECT 0 conn_handle) d).2.g_device_mode
      = d.g_device_mode ∧
    (d.g_device_mode = g_device_mode_t.REGISTRATION_MODE →
      (on_medium_button_press h
        (ble_gap_event conn_desc (GapEvent.BLE_GAP_EVENT_CONNECT 0 conn_handle) d).2).g_device_mode
        = g_device_mode_t.UNSPECIFIED_MODE) ∧
    (d.g_device_mode = g_device_mode_t.DELETION_MODE →
      (on_long_button_press h wl_addr0
        (ble_gap_event conn_desc (GapEvent.BLE_GAP_EVENT_CONNECT 0 conn_handle) d).2).g_device_mode
        = g_device_mode_t.UNSPECIFIED_MODE) ∧
    (d.g_device_mode = g_device_mode_t.REGISTRATION_MODE →
      ∀ (events : List Event) (next : Event),
        (∀ ev, ev ∈ events → ev ≠ Event.medium_press) →
        (run_events h wl_addr0 events
          (ble_gap_event conn_desc (GapEvent.BLE_GAP_EVENT_CONNECT 0 conn_handle)
            d).2).g_device_mode = g_device_mode_t.REGISTRATION_MODE ∧
        ((step h wl_addr0 next
          (run_events h wl_addr0 events
            (ble_gap_event conn_desc (GapEvent.BLE_GAP_EVENT_CONNECT 0 conn_handle)
              d).2)).g_device_mode = g_device_mode_t.UNSPECIFIED_MODE ↔
          next = Event.medium_press)) ∧
    (d.g_device_mode = g_device_mode_t.DELETION_MODE →
      ∀ (events : List Event) (next : Event),
        (∀ ev, ev ∈ events → ev ≠ Event.long_press) →
        (run_events h wl_addr0 events
          (ble_gap_event conn_desc (GapEvent.BLE_GAP_EVENT_CONNECT 0 conn_handle)
            d).2).g_device_mode = g_device_mode_t.DELETION_MODE ∧
        ((step h wl_addr0 next
          (run_events h wl_addr0 events
            (ble_gap_event conn_desc (GapEvent.BLE_GAP_EVENT_CONNECT 0 conn_handle)
              d).2)).g_device_mode = g_device_mode_t.UNSPECIFIED_MODE ↔
          next = Event.long_press)) := by
  have hkeep := ble_gap_event_mode conn_desc (GapEvent.BLE_GAP_EVENT_CONNECT 0 conn_handle) d
  refine ⟨hkeep, ?_, ?_, ?_, ?_⟩
  · intro hreg
    rw [medium_press_in_registration h _ (by rw [hkeep]; exact hreg)]
  · intro hdel
    rw [long_press_in_deletion h wl_addr0 _ (by rw [hkeep]; exact hdel)]
  · intro hreg events next hnone
    have hstay := run_events_stays_in_registration h wl_addr0 events _
      (by rw [hkeep]; exact hreg) hnone
    exact ⟨hstay, step_from_registration_idle_iff h wl_addr0 next _ hstay⟩
  · intro hdel events next hnone
    have hstay := run_events_stays_in_deletion h wl_addr0 events _
      (by rw [hkeep]; exact hdel) hnone
    exact ⟨hstay, step_from_deletion_idle_iff h wl_addr0 next _ hstay⟩

/-- Witness of C13, amended: a connect in deletion mode with the white list of the
source holding the peer. The mode is kept, a disconnect and a medium press that
follow keep it too, and a long press reaches Idle. -/
theorem connect_success_keeps_mode_witness :
    (ble_gap_event
      { our_id_addr := { type := 0, val := [6, 5, 4, 3, 2, 1] },
        peer_id_addr := { type := 1, val := [1, 2, 3, 4, 5, 6] } }
      (GapEvent.BLE_GAP_EVENT_CONNECT 0 1)
      { g_device_mode := g_device_mode_t.DELETION_MODE, g_ble_addr_type := 0,
        wl := (push_to_white_list { type := 1, val := [1, 2, 3, 4, 5, 6] }
          (init_white_list boot_white_list).2).2,
        trace := [] }).2.g_device_mode
      = g_device_mode_t.DELETION_MODE ∧
    (on_long_button_press Host.little { type := 0, val := [] }
      (ble_gap_event
        { our_id_addr := { type := 0, val := [6, 5, 4, 3, 2, 1] },
          peer_id_addr := { type := 1, val := [1, 2, 3, 4, 5, 6] } }
        (GapEvent.BLE_GAP_EVENT_CONNECT 0 1)
        { g_device_mode := g_device_mode_t.DELETION_MODE, g_ble_addr_type := 0,
          wl := (push_to_white_list { type := 1, val := [1, 2, 3, 4, 5, 6] }
            (init_white_list boot_white_list).2).2,
          trace := [] }).2).g_device_mode
      = g_device_mode_t.UNSPECIFIED_MODE ∧
    (run_events Host.little { type := 0, val := [] }
      [Event.gap
          { our_id_addr := { type := 0, val := [6, 5, 4, 3, 2, 1] },
            peer_id_addr := { type := 1, val := [1, 2, 3, 4, 5, 6] } }
          (GapEvent.BLE_GAP_EVENT_DISCONNECT 19),
        Event.medium_press]
      (ble_gap_event
        { our_id_addr := { type := 0, val := [6, 5, 4, 3, 2, 1] },
          peer_id_addr := { type := 1, val := [1, 2, 3, 4, 5, 6] } }
        (GapEvent.BLE_GAP_EVENT_CONNECT 0 1)
        { g_device_mode := g_device_mode_t.DELETION_MODE, g_ble_addr_type := 0,
          wl := (push_to_white_list { type := 1, val := [1, 2, 3, 4, 5, 6] }
            (init_white_list boot_white_list).2).2,
          trace := [] }).2).g_device_mode
      = g_device_mode_t.DELETION_MODE := by
  have hspec := connect_success_keeps_mode Host.little { type := 0, val := [] }
    { our_id_addr := { type := 0, val := [6, 5, 4, 3, 2, 1] },
      peer_id_addr := { type := 1, val := [1, 2, 3, 4, 5, 6] } } 1
    { g_device_mode := g_device_mode_t.DELETION_MODE, g_ble_addr_type := 0,
      wl := (push_to_white_list { type := 1, val := [1, 2, 3, 4, 5, 6] }
        (init_white_list boot_white_list).2).2,
      trace := [] }
  refine ⟨hspec.1, hspec.2.2.1 rfl, ?_⟩
  exact (hspec.2.2.2.2 rfl
    [Event.gap
        { our_id_addr := { type := 0, val := [6, 5, 4, 3, 2, 1] },
          peer_id_addr := { type := 1, val := [1, 2, 3, 4, 5, 6] } }
        (GapEvent.BLE_GAP_EVENT_DISCONNECT 19),
      Event.medium_press]
    Event.long_press (by decide)).1

/-- C14, counterexample. The white list of the source, initialised and holding the
address `01:02:03:04:05:06` of type 1, is full. Starting in Idle, a medium press
followed by a successful connect from the peer `09:09:09:09:09:09` of type 0 leaves
that peer not contained. -/
theorem registration_rejects_peer_when_full :
    (push_to_white_list { type := 1, val := [1, 2, 3, 4, 5, 6] }
      (init_white_list boot_white_list).2).2.wl_is_initialised = true ∧
    white_list_contains_addr { type := 0, val := [9, 9, 9, 9, 9, 9] }
      (ble_gap_event
        { our_id_addr := { type := 0, val := [6, 5, 4, 3, 2, 1] },
          peer_id_addr := { type := 0, val := [9, 9, 9, 9, 9, 9] } }
        (GapEvent.BLE_GAP_EVENT_CONNECT 0 1)
        (on_medium_button_press Host.little
          { g_device_mode := g_device_mode_t.UNSPECIFIED_MODE, g_ble_addr_type := 0,
            wl := (push_to_white_list { type := 1, val := [1, 2, 3, 4, 5, 6] }
              (init_white_list boot_white_list).2).2,
            trace := [] })).2.wl = false := by
  constructor <;> decide

/-- C14, amended. Registration admits the peer unless the list is full. For every
initialised white list whose count matches its slots and every peer address,
starting in Idle, after a medium press followed by a successful connect from that
peer: if the list was not full the peer is contained; if the list was full the
white list is unchanged; so the peer is contained afterwards exactly when the list
was not full or already contained it. -/
theorem registration_admits_peer_unless_full (h : Host) (conn_desc : ble_gap_conn_desc)
    (conn_handle : Nat) (d : Device)
    (hmode : d.g_device_mode = g_device_mode_t.UNSPECIFIED_MODE)
    (hinit : d.wl.wl_is_initialised = true) (hc : d.wl.Consistent) :
    (d.wl.white_list_len ≠ d.wl.white_list_size →
      white_list_contains_addr conn_desc.peer_id_addr
        (ble_gap_event conn_desc (GapEvent.BLE_GAP_EVENT_CONNECT 0 conn_handle)
          (on_medium_button_press h d)).2.wl = true) ∧
    (d.wl.white_list_len = d.wl.white_list_size →
      (ble_gap_event conn_desc (GapEvent.BLE_GAP_EVENT_CONNECT 0 conn_handle)
        (on_medium_button_press h d)).2.wl = d.wl) ∧
    (white_list_contains_addr conn_desc.peer_id_addr
        (ble_gap_event conn_desc (GapEvent.BLE_GAP_EVENT_CONNECT 0 conn_handle)
          (on_medium_button_press h d)).2.wl = true ↔
      (d.wl.white_list_len ≠ d.wl.white_list_size ∨
        white_list_contains_addr conn_desc.peer_id_addr d.wl = true)) := by
  have hwl : (ble_gap_event conn_desc (GapEvent.BLE_GAP_EVENT_CONNECT 0 conn_handle)
      (on_medium_button_press h d)).2.wl = (push_to_white_list conn_desc.peer_id_addr d.wl).2 := by
    rw [medium_press_in_idle h d hmode, connect_in_registration conn_desc conn_handle _ rfl]
  rw [hwl]
  have hfree : d.wl.white_list_len ≠ d.wl.white_list_size →
      white_list_contains_addr conn_desc.peer_id_addr
        (push_to_white_list conn_desc.peer_id_addr d.wl).2 = true :=
    fun hne => contains_after_push conn_desc.peer_id_addr d.wl hinit hc hne
  have hfull : d.wl.white_list_len = d.wl.white_list_size →
      (push_to_white_list conn_desc.peer_id_addr d.wl).2 = d.wl := by
    intro heq
    rw [push_to_white_list_full conn_desc.peer_id_addr d.wl heq]
  refine ⟨hfree, hfull, ?_⟩
  by_cases hne : d.wl.white_list_len = d.wl.white_list_size
  · rw [hfull hne]
    simp [hne]
  · simp [hne, hfree hne]

/-- Witness of C14, amended: the empty white list of the source admits the peer. -/
theorem registration_admits_peer_unless_full_witness :
    white_list_contains_addr { type := 1, val := [1, 2, 3, 4, 5, 6] }
      (ble_gap_event
        { our_id_addr := { type := 0, val := [6, 5, 4, 3, 2, 1] },
          peer_id_addr := { type := 1, val := [1, 2, 3, 4, 5, 6] } }
        (GapEvent.BLE_GAP_EVENT_CONNECT 0 1)
        (on_medium_button_press Host.little
          { g_device_mode := g_device_mode_t.UNSPECIFIED_MODE, g_ble_addr_type := 0,
            wl := (init_white_list boot_white_list).2, trace := [] })).2.wl = true :=
  (registration_admits_peer_unless_full Host.little
    { our_id_addr := { type := 0, val := [6, 5, 4, 3, 2, 1] },
      peer_id_addr := { type := 1, val := [1, 2, 3, 4, 5, 6] } } 1
    { g_device_mode := g_device_mode_t.UNSPECIFIED_MODE, g_ble_addr_type := 0,
      wl := (init_white_list boot_white_list).2, trace := [] } rfl (by decide)
    ⟨by decide, by decide, by decide⟩).1 (by decide)

/-- C15. Deletion removes the peer and reports truthfully. In `DELETION_MODE`, for
every initialised white list whose count matches its slots and in which no two
occupied slots hold the peer (with the capacity 1 of the source, every list), after
a connect event with status 0 from that peer: the peer is not contained; the calls
made are `ble_gap_adv_stop`, then `led_start_blink(700, 700)` if and only if the
peer was contained before the event, then `ble_gap_terminate` in both cases. -/
theorem deletion_removes_peer (conn_desc : ble_gap_conn_desc) (conn_handle : Nat) (d : Device)
    (hmode : d.g_device_mode = g_device_mode_t.DELETION_MODE)
    (hinit : d.wl.wl_is_initialised = true) (hc : d.wl.Consistent)
    (hone : d.wl.at_most_once conn_desc.peer_id_addr) :
    white_list_contains_addr conn_desc.peer_id_addr
      (ble_gap_event conn_desc (GapEvent.BLE_GAP_EVENT_CONNECT 0 conn_handle) d).2.wl = false ∧
    (ble_gap_event conn_desc (GapEvent.BLE_GAP_EVENT_CONNECT 0 conn_handle) d).2.trace =
      d.trace ++
        (DeviceAction.ble_gap_adv_stop ::
          ((if white_list_contains_addr conn_desc.peer_id_addr d.wl = true then
              [DeviceAction.led_start_blink 700 700]
            else []) ++
            [DeviceAction.ble_gap_terminate conn_handle BLE_ERR_REM_USER_CONN_TERM])) ∧
    (DeviceAction.led_start_blink 700 700 ∈
        ((ble_gap_event conn_desc (GapEvent.BLE_GAP_EVENT_CONNECT 0 conn_handle) d).2.trace.drop
          d.trace.length) ↔
      white_list_contains_addr conn_desc.peer_id_addr d.wl = true) ∧
    DeviceAction.ble_gap_terminate conn_handle BLE_ERR_REM_USER_CONN_TERM ∈
      ((ble_gap_event conn_desc (GapEvent.BLE_GAP_EVENT_CONNECT 0 conn_handle) d).2.trace.drop
        d.trace.length) := by
  have hok := remove_ok_iff_contains conn_desc.peer_id_addr d.wl hinit hc
  have htrace : (ble_gap_event conn_desc (GapEvent.BLE_GAP_EVENT_CONNECT 0 conn_handle)
      d).2.trace =
      d.trace ++
        (DeviceAction.ble_gap_adv_stop ::
          ((if white_list_contains_addr conn_desc.peer_id_addr d.wl = true then
              [DeviceAction.led_start_blink 700 700]
            else []) ++
            [DeviceAction.ble_gap_terminate conn_handle BLE_ERR_REM_USER_CONN_TERM])) := by
    rw [connect_in_deletion conn_desc conn_handle d hmode]
    simp only [hok]
  refine ⟨?_, htrace, ?_, ?_⟩
  · rw [connect_in_deletion conn_desc conn_handle d hmode]
    exact not_contains_after_remove conn_desc.peer_id_addr d.wl hinit hc hone
  · rw [htrace, List.drop_left]
    by_cases hcont : white_list_contains_addr conn_desc.peer_id_addr d.wl = true
    · simp [hcont]
    · simp [hcont]
  · rw [htrace, List.drop_left]
    simp

/-- Witness of C15: the white list of the source holding the peer that connects. -/
theorem deletion_removes_peer_witness :
    white_list_contains_addr { type := 1, val := [1, 2, 3, 4, 5, 6] }
      (ble_gap_event
        { our_id_addr := { type := 0, val := [6, 5, 4, 3, 2, 1] },
          peer_id_addr := { type := 1, val := [1, 2, 3, 4, 5, 6] } }
        (GapEvent.BLE_GAP_EVENT_CONNECT 0 1)
        { g_device_mode := g_device_mode_t.DELETION_MODE, g_ble_addr_type := 0,
          wl := (push_to_white_list { type := 1, val := [1, 2, 3, 4, 5, 6] }
            (init_white_list boot_white_list).2).2,
          trace := [] }).2.wl = false :=
  (deletion_removes_peer
    { our_id_addr := { type := 0, val := [6, 5, 4, 3, 2, 1] },
      peer_id_addr := { type := 1, val := [1, 2, 3, 4, 5, 6] } } 1
    { g_device_mode := g_device_mode_t.DELETION_MODE, g_ble_addr_type := 0,
      wl := (push_to_white_list { type := 1, val := [1, 2, 3, 4, 5, 6] }
        (init_white_list boot_white_list).2).2,
      trace := [] } rfl (by decide) ⟨by decide, by decide, by decide⟩
    (at_most_once_of_capacity_one _ _ (by decide))).1

/-- C16. Long press from Idle is guarded by occupancy. In mode Idle, when
`white_list_is_empty` is true `on_long_button_press` changes nothing and makes no
call; when it is false the mode becomes `DELETION_MODE`, the white list is
unchanged, and exactly three calls are made: the LED is turned on, the advertising
fields get the frame `[0x00, 0x02]` as manufacturer data, and advertising is
started with the address that `get_white_list_addr` leaves in `wl_addr` (on an
initialised list: the address of slot 0). `open_packet` decodes the frame to
`DEL_HEADER` with no payload. Hence the mode is `DELETION_MODE` after the press only
if the white list was not empty before it. -/
theorem long_press_guarded_by_occupancy (h : Host) (wl_addr0 : ble_addr_t) (d : Device)
    (hmode : d.g_device_mode = g_device_mode_t.UNSPECIFIED_MODE)
    (dest_header : Nat) (dest_buff : Option (List Nat)) :
    (white_list_is_empty d.wl = true → on_long_button_press h wl_addr0 d = d) ∧
    (white_list_is_empty d.wl = false →
      on_long_button_press h wl_addr0 d =
        { d with
          g_device_mode := g_device_mode_t.DELETION_MODE
          trace := d.trace ++
            [DeviceAction.led_turn_on,
              DeviceAction.ble_gap_adv_set_fields
                { uuids16 := [0x1809], mfg_data := [0x00, 0x02] },
              DeviceAction.ble_gap_adv_start d.g_ble_addr_type
                (some (get_white_list_addr wl_addr0 d.wl).2) BLE_HS_FOREVER
                { conn_mode := ble_gap_conn_mode.BLE_GAP_CONN_MODE_UND
                  disc_mode := ble_gap_disc_mode.BLE_GAP_DISC_MODE_NON
                  itvl_min := 0x10, itvl_max := 0x20, high_duty_cycle := 0 }] }) ∧
    (d.wl.wl_is_initialised = true → white_list_is_empty d.wl = false →
      get_white_list_addr wl_addr0 d.wl = (ESP_OK, (d.wl.entry 0).device_addr)) ∧
    open_packet h dest_header dest_buff (some [0x00, 0x02]) 2 =
      { ret := 0, dest_header := DEL_HEADER, dest_buff := dest_buff } ∧
    ((on_long_button_press h wl_addr0 d).g_device_mode = g_device_mode_t.DELETION_MODE →
      white_list_is_empty d.wl = false) := by
  refine ⟨long_press_in_idle_empty h wl_addr0 d hmode, long_press_in_idle h wl_addr0 d hmode,
    ?_, open_header_only_frame h dest_header dest_buff DEL_HEADER (Or.inr (Or.inl rfl)), ?_⟩
  · intro hinit hempty
    have hlen : d.wl.white_list_len ≠ 0 := by
      simpa [white_list_is_empty] using hempty
    unfold get_white_list_addr
    rw [if_neg (by simp [hinit]), if_neg hlen]
  · intro hdel
    cases hempty : white_list_is_empty d.wl
    · rfl
    · rw [long_press_in_idle_empty h wl_addr0 d hmode hempty, hmode] at hdel
      exact absurd hdel (by decide)

/-- Witness of C16: a long press in Idle with the white list of the source holding
one address. -/
theorem long_press_guarded_by_occupancy_witness :
    (on_long_button_press Host.little { type := 0, val := [] }
      { g_device_mode := g_device_mode_t.UNSPECIFIED_MODE, g_ble_addr_type := 0,
        wl := (push_to_white_list { type := 1, val := [1, 2, 3, 4, 5, 6] }
          (init_white_list boot_white_list).2).2,
        trace := [] }).g_device_mode = g_device_mode_t.DELETION_MODE := by
  have hspec := long_press_guarded_by_occupancy Host.little { type := 0, val := [] }
    { g_device_mode := g_device_mode_t.UNSPECIFIED_MODE, g_ble_addr_type := 0,
      wl := (push_to_white_list { type := 1, val := [1, 2, 3, 4, 5, 6] }
        (init_white_list boot_white_list).2).2,
      trace := [] } rfl 0 none
  rw [hspec.2.1 (by decide)]

/-- C17. Toggle exit. A medium press in `REGISTRATION_MODE` and a long press in
`DELETION_MODE` each set the mode to `UNSPECIFIED_MODE` and leave the white list
unchanged; the calls they make are the timer wake-up (only when the white list is
not empty), `led_turn_off` and, last, `esp_deep_sleep_start`; no advertising is
started and the mode is not entered again. -/
theorem toggle_exit (h : Host) (wl_addr0 : ble_addr_t) (d : Device)
    (hmode : d.g_device_mode = g_device_mode_t.REGISTRATION_MODE ∨
      d.g_device_mode = g_device_mode_t.DELETION_MODE) :
    (d.g_device_mode = g_device_mode_t.REGISTRATION_MODE →
      on_medium_button_press h d =
        { d with
          g_device_mode := g_device_mode_t.UNSPECIFIED_MODE
          trace := d.trace ++
            ((if white_list_is_empty d.wl = false then
                [DeviceAction.esp_sleep_enable_timer_wakeup DEEP_SLEEP_CYCLE_TIME]
              else []) ++
              [DeviceAction.led_turn_off, DeviceAction.esp_deep_sleep_start]) } ∧
      (∀ own_addr_type direct_addr duration_ms adv_params,
        DeviceAction.ble_gap_adv_start own_addr_type direct_addr duration_ms adv_params ∉
          (on_medium_button_press h d).trace.drop d.trace.length) ∧
      (on_medium_button_press h d).trace.getLast? = some DeviceAction.esp_deep_sleep_start) ∧
    (d.g_device_mode = g_device_mode_t.DELETION_MODE →
      on_long_button_press h wl_addr0 d =
        { d with
          g_device_mode := g_device_mode_t.UNSPECIFIED_MODE
          trace := d.trace ++
            ((if white_list_is_empty d.wl = false then
                [DeviceAction.esp_sleep_enable_timer_wakeup DEEP_SLEEP_CYCLE_TIME]
              else []) ++
              [DeviceAction.led_turn_off, DeviceAction.esp_deep_sleep_start]) } ∧
      (∀ own_addr_type direct_addr duration_ms adv_params,
        DeviceAction.ble_gap_adv_start own_addr_type direct_addr duration_ms adv_params ∉
          (on_long_button_press h wl_addr0 d).trace.drop d.trace.length) ∧
      (on_long_button_press h wl_addr0 d).trace.getLast? =
        some DeviceAction.esp_deep_sleep_start) ∧
    (step h wl_addr0
        (if d.g_device_mode = g_device_mode_t.REGISTRATION_MODE then Event.medium_press
          else Event.long_press) d).g_device_mode = g_device_mode_t.UNSPECIFIED_MODE ∧
    (step h wl_addr0
        (if d.g_device_mode = g_device_mode_t.REGISTRATION_MODE then Event.medium_press
          else Event.long_press) d).wl = d.wl := by
  refine ⟨?_, ?_, ?_⟩
  · intro hreg
    have hstep := medium_press_in_registration h d hreg
    refine ⟨hstep, ?_, ?_⟩
    · intro a b c e
      rw [hstep, List.drop_left]
      cases white_list_is_empty d.wl <;> simp
    · rw [hstep]
      cases white_list_is_empty d.wl <;> simp [List.getLast?_eq_getLast]
  · intro hdel
    have hstep := long_press_in_deletion h wl_addr0 d hdel
    refine ⟨hstep, ?_, ?_⟩
    · intro a b c e
      rw [hstep, List.drop_left]
      cases white_list_is_empty d.wl <;> simp
    · rw [hstep]
      cases white_list_is_empty d.wl <;> simp [List.getLast?_eq_getLast]
  · rcases hmode with hreg | hdel
    · rw [if_pos hreg]
      simp only [step]
      rw [medium_press_in_registration h d hreg]
      exact ⟨rfl, rfl⟩
    · rw [if_neg (by rw [hdel]; decide)]
      simp only [step]
      rw [long_press_in_deletion h wl_addr0 d hdel]
      exact ⟨rfl, rfl⟩

/-- Witness of C17: a medium press in registration mode with the white list of the
source holding one address. -/
theorem toggle_exit_witness :
    on_medium_button_press Host.little
      { g_device_mode := g_device_mode_t.REGISTRATION_MODE, g_ble_addr_type := 0,
        wl := (push_to_white_list { type := 1, val := [1, 2, 3, 4, 5, 6] }
          (init_white_list boot_white_list).2).2,
        trace := [] } =
      { g_device_mode := g_device_mode_t.UNSPECIFIED_MODE, g_ble_addr_type := 0,
        wl := (push_to_white_list { type := 1, val := [1, 2, 3, 4, 5, 6] }
          (init_white_list boot_white_list).2).2,
        trace := [DeviceAction.esp_sleep_enable_timer_wakeup 5000000, DeviceAction.led_turn_off,
          DeviceAction.esp_deep_sleep_start] } := by
  have hspec := toggle_exit Host.little { type := 0, val := [] }
    { g_device_mode := g_device_mode_t.REGISTRATION_MODE, g_ble_addr_type := 0,
      wl := (push_to_white_list { type := 1, val := [1, 2, 3, 4, 5, 6] }
        (init_white_list boot_white_list).2).2,
      trace := [] } (Or.inl rfl)
  rw [(hspec.1 rfl).1]
  decide

/-- C18. No direct transition between Registering and Deleting. For every state and
every event of the controller (a short, medium or long press, or an event of the
radio stack: advertising complete, connect with any status, disconnect, any other),
a step from `REGISTRATION_MODE` does not end in `DELETION_MODE` and a step from
`DELETION_MODE` does not end in `REGISTRATION_MODE`. A long press in
`REGISTRATION_MODE` and a medium press in `DELETION_MODE` change nothing. -/
theorem no_direct_transition (h : Host) (wl_addr0 : ble_addr_t) (ev : Event) (d : Device) :
    (d.g_device_mode = g_device_mode_t.REGISTRATION_MODE →
      (step h wl_addr0 ev d).g_device_mode ≠ g_device_mode_t.DELETION_MODE) ∧
    (d.g_device_mode = g_device_mode_t.DELETION_MODE →
      (step h wl_addr0 ev d).g_device_mode ≠ g_device_mode_t.REGISTRATION_MODE) ∧
    (d.g_device_mode = g_device_mode_t.REGISTRATION_MODE →
      step h wl_addr0 Event.long_press d = d) ∧
    (d.g_device_mode = g_device_mode_t.DELETION_MODE →
      step h wl_addr0 Event.medium_press d = d) := by
  refine ⟨?_, ?_, ?_, ?_⟩
  · intro hreg
    cases ev with
    | short_press =>
      simp only [step, on_short_button_press]
      rw [hreg]
      decide
    | medium_press =>
      simp only [step]
      rw [medium_press_in_registration h d hreg]
      simp
    | long_press =>
      simp only [step]
      rw [long_press_in_registration h wl_addr0 d hreg, hreg]
      decide
    | gap conn_desc event =>
      simp only [step]
      rw [ble_gap_event_mode, hreg]
      decide
  · intro hdel
    cases ev with
    | short_press =>
      simp only [step, on_short_button_press]
      rw [hdel]
      decide
    | medium_press =>
      simp only [step]
      rw [medium_press_in_deletion h d hdel, hdel]
      decide
    | long_press =>
      simp only [step]
      rw [long_press_in_deletion h wl_addr0 d hdel]
      simp
    | gap conn_desc event =>
      simp only [step]
      rw [ble_gap_event_mode, hdel]
      decide
  · intro hreg
    exact long_press_in_registration h wl_addr0 d hreg
  · intro hdel
    exact medium_press_in_deletion h d hdel

/-- Witness of C18: a long press in registration mode changes nothing. -/
theorem no_direct_transition_witness :
    step Host.little { type := 0, val := [] } Event.long_press
      { g_device_mode := g_device_mode_t.REGISTRATION_MODE, g_ble_addr_type := 0,
        wl := (init_white_list boot_white_list).2, trace := [] } =
      { g_device_mode := g_device_mode_t.REGISTRATION_MODE, g_ble_addr_type := 0,
        wl := (init_white_list boot_white_list).2, trace := [] } :=
  (no_direct_transition Host.little { type := 0, val := [] } Event.long_press
    { g_device_mode := g_device_mode_t.REGISTRATION_MODE, g_ble_addr_type := 0,
      wl := (init_white_list boot_white_list).2, trace := [] }).2.2.1 rfl

/-- C19. Advertising-complete handling. In mode Idle `ble_gap_event` turns the LED
off, arms the timer wake-up when the white list is not empty, and suspends
(`esp_deep_sleep_start` is its last call), leaving mode and white list as they are.
In `REGISTRATION_MODE` and `DELETION_MODE` it returns without any call: it does not
suspend and changes neither the mode nor the white list. -/
theorem adv_complete_handling (conn_desc : ble_gap_conn_desc) (d : Device) :
    (d.g_device_mode = g_device_mode_t.UNSPECIFIED_MODE →
      ble_gap_event conn_desc GapEvent.BLE_GAP_EVENT_ADV_COMPLETE d =
        (0, { d with
          trace := d.trace ++
            (DeviceAction.led_turn_off ::
              ((if white_list_is_empty d.wl = false then
                  [DeviceAction.esp_sleep_enable_timer_wakeup DEEP_SLEEP_CYCLE_TIME]
                else []) ++
                [DeviceAction.esp_deep_sleep_start])) })) ∧
    ((d.g_device_mode = g_device_mode_t.REGISTRATION_MODE ∨
        d.g_device_mode = g_device_mode_t.DELETION_MODE) →
      ble_gap_event conn_desc GapEvent.BLE_GAP_EVENT_ADV_COMPLETE d = (0, d)) := by
  constructor
  · intro hidle
    unfold ble_gap_event
    simp only []
    rw [if_neg (by rw [hidle]; decide)]
    cases hempty : white_list_is_empty d.wl <;> simp [Device.emit, hempty]
  · intro hbusy
    unfold ble_gap_event
    simp only []
    rw [if_pos hbusy]

/-- Witness of C19: advertising completes in Idle with an empty white list. -/
theorem adv_complete_handling_witness :
    ble_gap_event
      { our_id_addr := { type := 0, val := [6, 5, 4, 3, 2, 1] },
        peer_id_addr := { type := 1, val := [1, 2, 3, 4, 5, 6] } }
      GapEvent.BLE_GAP_EVENT_ADV_COMPLETE
      { g_device_mode := g_device_mode_t.UNSPECIFIED_MODE, g_ble_addr_type := 0,
        wl := (init_white_list boot_white_list).2, trace := [] } =
      (0,
        { g_device_mode := g_device_mode_t.UNSPECIFIED_MODE, g_ble_addr_type := 0,
          wl := (init_white_list boot_white_list).2,
          trace := [DeviceAction.led_turn_off, DeviceAction.esp_deep_sleep_start] }) := by
  have hspec := adv_complete_handling
    { our_id_addr := { type := 0, val := [6, 5, 4, 3, 2, 1] },
      peer_id_addr := { type := 1, val := [1, 2, 3, 4, 5, 6] } }
    { g_device_mode := g_device_mode_t.UNSPECIFIED_MODE, g_ble_addr_type := 0,
      wl := (init_white_list boot_white_list).2, trace := [] }
  rw [hspec.1 rfl]
  decide

/-- C20. Failed connects and disconnects are inert. For every mode and white list,
`ble_gap_event` handling a connect event whose status is not zero, or a disconnect
event, returns 0 and leaves the whole state as it is: mode, white list slots and
count are unchanged and no call is made (advertising is not stopped, no disconnect
is requested, the device does not suspend). -/
theorem failed_connect_and_disconnect_inert (conn_desc : ble_gap_conn_desc) (d : Device)
    (status : Int) (conn_handle : Nat) (reason : Int) (hstatus : status ≠ 0) :
    ble_gap_event conn_desc (GapEvent.BLE_GAP_EVENT_CONNECT status conn_handle) d = (0, d) ∧
    ble_gap_event conn_desc (GapEvent.BLE_GAP_EVENT_DISCONNECT reason) d = (0, d) := by
  constructor
  · unfold ble_gap_event
    simp only []
    rw [if_neg hstatus]
  · rfl

/-- Witness of C20: a connect that failed with status 2 in registration mode. -/
theorem failed_connect_and_disconnect_inert_witness :
    ble_gap_event
      { our_id_addr := { type := 0, val := [6, 5, 4, 3, 2, 1] },
        peer_id_addr := { type := 1, val := [1, 2, 3, 4, 5, 6] } }
      (GapEvent.BLE_GAP_EVENT_CONNECT 2 1)
      { g_device_mode := g_device_mode_t.REGISTRATION_MODE, g_ble_addr_type := 0,
        wl := (init_white_list boot_white_list).2, trace := [] } =
      (0,
        { g_device_mode := g_device_mode_t.REGISTRATION_MODE, g_ble_addr_type := 0,
          wl := (init_white_list boot_white_list).2, trace := [] }) :=
  (failed_connect_and_disconnect_inert
    { our_id_addr := { type := 0, val := [6, 5, 4, 3, 2, 1] },
      peer_id_addr := { type := 1, val := [1, 2, 3, 4, 5, 6] } }
    { g_device_mode := g_device_mode_t.REGISTRATION_MODE, g_ble_addr_type := 0,
      wl := (init_white_list boot_white_list).2, trace := [] } 2 1 0 (by decide)).1

/-! ## Lemmas for the sleep decision -/

/-- The suspend branch of `ble_gap_event` for advertising complete, in closed form. -/
theorem adv_complete_in_idle (conn_desc : ble_gap_conn_desc) (d : Device)
    (hmode : d.g_device_mode = g_device_mode_t.UNSPECIFIED_MODE) :
    ble_gap_event conn_desc GapEvent.BLE_GAP_EVENT_ADV_COMPLETE d =
      (0, { d with
        trace := d.trace ++
          (DeviceAction.led_turn_off ::
            ((if white_list_is_empty d.wl = false then
                [DeviceAction.esp_sleep_enable_timer_wakeup DEEP_SLEEP_CYCLE_TIME]
              else []) ++
              [DeviceAction.esp_deep_sleep_start])) }) := by
  unfold ble_gap_event
  simp only []
  rw [if_neg (by rw [hmode]; decide)]
  cases hempty : white_list_is_empty d.wl <;> simp [Device.emit, hempty]

/-- The calls added to a trace are what was appended to it. -/
theorem new_calls_append (d : Device) (m : g_device_mode_t) (acts : List DeviceAction) :
    new_calls d { d with g_device_mode := m, trace := d.trace ++ acts } = acts := by
  simp [new_calls]

/-! ## The sleep decision and the exit from a mode: claims C21 and C22 -/

/-- C21. The sleep plan depends only on the occupancy of the white list. Take three
states with the same white list: one in Idle receiving advertising complete, one in
`REGISTRATION_MODE` receiving a medium press, one in `DELETION_MODE` receiving a
long press. At each of the three sites the calls end in `esp_deep_sleep_start`, and
the timer wake-ups armed before it are: none if `white_list_is_empty` is true, one
of 5,000,000 microseconds otherwise; so the three sites decide alike. No other wake
source is touched at the sites; the wake-up by the button is armed by `button_init`
(`esp_deep_sleep_enable_gpio_wakeup` on the mask of the pin). -/
theorem sleep_plan_depends_on_occupancy (h : Host) (wl_addr0 : ble_addr_t)
    (conn_desc : ble_gap_conn_desc) (d_idle d_reg d_del : Device)
    (hidle : d_idle.g_device_mode = g_device_mode_t.UNSPECIFIED_MODE)
    (hreg : d_reg.g_device_mode = g_device_mode_t.REGISTRATION_MODE)
    (hdel : d_del.g_device_mode = g_device_mode_t.DELETION_MODE)
    (hwl_reg : d_reg.wl = d_idle.wl) (hwl_del : d_del.wl = d_idle.wl) :
    armed_timers (new_calls d_idle
        (ble_gap_event conn_desc GapEvent.BLE_GAP_EVENT_ADV_COMPLETE d_idle).2) =
      (if white_list_is_empty d_idle.wl = true then [] else [5000000]) ∧
    armed_timers (new_calls d_reg (on_medium_button_press h d_reg)) =
      (if white_list_is_empty d_idle.wl = true then [] else [5000000]) ∧
    armed_timers (new_calls d_del (on_long_button_press h wl_addr0 d_del)) =
      (if white_list_is_empty d_idle.wl = true then [] else [5000000]) ∧
    DeviceAction.esp_deep_sleep_start ∈ new_calls d_idle
      (ble_gap_event conn_desc GapEvent.BLE_GAP_EVENT_ADV_COMPLETE d_idle).2 ∧
    DeviceAction.esp_deep_sleep_start ∈ new_calls d_reg (on_medium_button_press h d_reg) ∧
    DeviceAction.esp_deep_sleep_start ∈
      new_calls d_del (on_long_button_press h wl_addr0 d_del) ∧
    (∀ (gpio_num : Nat) (button_cnfg : button_cnfg_t) (s : ButtonState),
      ButtonAction.esp_deep_sleep_enable_gpio_wakeup (2 ^ gpio_num) ∈
        (button_init gpio_num button_cnfg s).2.trace) := by
  have h1 : new_calls d_idle
      (ble_gap_event conn_desc GapEvent.BLE_GAP_EVENT_ADV_COMPLETE d_idle).2 =
      DeviceAction.led_turn_off ::
        ((if white_list_is_empty d_idle.wl = false then
            [DeviceAction.esp_sleep_enable_timer_wakeup DEEP_SLEEP_CYCLE_TIME]
          else []) ++
          [DeviceAction.esp_deep_sleep_start]) := by
    rw [adv_complete_in_idle conn_desc d_idle hidle]
    simp [new_calls]
  have h2 : new_calls d_reg (on_medium_button_press h d_reg) =
      (if white_list_is_empty d_idle.wl = false then
          [DeviceAction.esp_sleep_enable_timer_wakeup DEEP_SLEEP_CYCLE_TIME]
        else []) ++
        [DeviceAction.led_turn_off, DeviceAction.esp_deep_sleep_start] := by
    rw [medium_press_in_registration h d_reg hreg, new_calls_append, hwl_reg]
  have h3 : new_calls d_del (on_long_button_press h wl_addr0 d_del) =
      (if white_list_is_empty d_idle.wl = false then
          [DeviceAction.esp_sleep_enable_timer_wakeup DEEP_SLEEP_CYCLE_TIME]
        else []) ++
        [DeviceAction.led_turn_off, DeviceAction.esp_deep_sleep_start] := by
    rw [long_press_in_deletion h wl_addr0 d_del hdel, new_calls_append, hwl_del]
  rw [h1, h2, h3]
  refine ⟨?_, ?_, ?_, ?_, ?_, ?_, ?_⟩
  · cases white_list_is_empty d_idle.wl <;> simp [armed_timers, DEEP_SLEEP_CYCLE_TIME]
  · cases white_list_is_empty d_idle.wl <;> simp [armed_timers, DEEP_SLEEP_CYCLE_TIME]
  · cases white_list_is_empty d_idle.wl <;> simp [armed_timers, DEEP_SLEEP_CYCLE_TIME]
  · simp
  · simp
  · simp
  · intro gpio_num button_cnfg s
    simp [button_init, ButtonState.emit]

/-- Witness of C21: the three sites with the white list of the source holding one
address; each arms the timer for 5,000,000 microseconds. -/
theorem sleep_plan_depends_on_occupancy_witness :
    armed_timers (new_calls
        { g_device_mode := g_device_mode_t.UNSPECIFIED_MODE, g_ble_addr_type := 0,
          wl := (push_to_white_list { type := 1, val := [1, 2, 3, 4, 5, 6] }
            (init_white_list boot_white_list).2).2,
          trace := [] }
        (ble_gap_event
          { our_id_addr := { type := 0, val := [6, 5, 4, 3, 2, 1] },
            peer_id_addr := { type := 1, val := [1, 2, 3, 4, 5, 6] } }
          GapEvent.BLE_GAP_EVENT_ADV_COMPLETE
          { g_device_mode := g_device_mode_t.UNSPECIFIED_MODE, g_ble_addr_type := 0,
            wl := (push_to_white_list { type := 1, val := [1, 2, 3, 4, 5, 6] }
              (init_white_list boot_white_list).2).2,
            trace := [] }).2) = [5000000] := by
  have hspec := sleep_plan_depends_on_occupancy Host.little { type := 0, val := [] }
    { our_id_addr := { type := 0, val := [6, 5, 4, 3, 2, 1] },
      peer_id_addr := { type := 1, val := [1, 2, 3, 4, 5, 6] } }
    { g_device_mode := g_device_mode_t.UNSPECIFIED_MODE, g_ble_addr_type := 0,
      wl := (push_to_white_list { type := 1, val := [1, 2, 3, 4, 5, 6] }
        (init_white_list boot_white_list).2).2,
      trace := [] }
    { g_device_mode := g_device_mode_t.REGISTRATION_MODE, g_ble_addr_type := 0,
      wl := (push_to_white_list { type := 1, val := [1, 2, 3, 4, 5, 6] }
        (init_white_list boot_white_list).2).2,
      trace := [] }
    { g_device_mode := g_device_mode_t.DELETION_MODE, g_ble_addr_type := 0,
      wl := (push_to_white_list { type := 1, val := [1, 2, 3, 4, 5, 6] }
        (init_white_list boot_white_list).2).2,
      trace := [] } rfl rfl rfl rfl rfl
  rw [hspec.1]
  decide

/-- C22, counterexample. A medium press in `REGISTRATION_MODE`, with the white list
of the source, makes the calls `led_turn_off` and `esp_deep_sleep_start` only: the
device suspends and `ble_gap_adv_stop` is not called. -/
theorem exit_suspends_without_adv_stop :
    (on_medium_button_press Host.little
      { g_device_mode := g_device_mode_t.REGISTRATION_MODE, g_ble_addr_type := 0,
        wl := (init_white_list boot_white_list).2, trace := [] }).trace =
      [DeviceAction.led_turn_off, DeviceAction.esp_deep_sleep_start] ∧
    DeviceAction.ble_gap_adv_stop ∉
      (on_medium_button_press Host.little
        { g_device_mode := g_device_mode_t.REGISTRATION_MODE, g_ble_addr_type := 0,
          wl := (init_white_list boot_white_list).2, trace := [] }).trace := by
  constructor <;> decide

/-- C22, amended. Exiting a mode suspends without an explicit stop of advertising.
Among the calls made by a medium press in `REGISTRATION_MODE` and by a long press
in `DELETION_MODE` there is no `ble_gap_adv_stop`: the calls are the timer wake-up
(when the white list is not empty), `led_turn_off` and `esp_deep_sleep_start`. -/
theorem exit_makes_no_adv_stop (h : Host) (wl_addr0 : ble_addr_t) (d : Device)
    (hmode : d.g_device_mode = g_device_mode_t.REGISTRATION_MODE ∨
      d.g_device_mode = g_device_mode_t.DELETION_MODE) :
    (d.g_device_mode = g_device_mode_t.REGISTRATION_MODE →
      DeviceAction.ble_gap_adv_stop ∉ new_calls d (on_medium_button_press h d) ∧
      new_calls d (on_medium_button_press h d) =
        (if white_list_is_empty d.wl = false then
            [DeviceAction.esp_sleep_enable_timer_wakeup DEEP_SLEEP_CYCLE_TIME]
          else []) ++
          [DeviceAction.led_turn_off, DeviceAction.esp_deep_sleep_start]) ∧
    (d.g_device_mode = g_device_mode_t.DELETION_MODE →
      DeviceAction.ble_gap_adv_stop ∉ new_calls d (on_long_button_press h wl_addr0 d) ∧
      new_calls d (on_long_button_press h wl_addr0 d) =
        (if white_list_is_empty d.wl = false then
            [DeviceAction.esp_sleep_enable_timer_wakeup DEEP_SLEEP_CYCLE_TIME]
          else []) ++
          [DeviceAction.led_turn_off, DeviceAction.esp_deep_sleep_start]) ∧
    DeviceAction.ble_gap_adv_stop ∉
      new_calls d (step h wl_addr0
        (if d.g_device_mode = g_device_mode_t.REGISTRATION_MODE then Event.medium_press
          else Event.long_press) d) := by
  have hmed : d.g_device_mode = g_device_mode_t.REGISTRATION_MODE →
      DeviceAction.ble_gap_adv_stop ∉ new_calls d (on_medium_button_press h d) ∧
      new_calls d (on_medium_button_press h d) =
        (if white_list_is_empty d.wl = false then
            [DeviceAction.esp_sleep_enable_timer_wakeup DEEP_SLEEP_CYCLE_TIME]
          else []) ++
          [DeviceAction.led_turn_off, DeviceAction.esp_deep_sleep_start] := by
    intro hreg
    rw [medium_press_in_registration h d hreg, new_calls_append]
    refine ⟨?_, rfl⟩
    cases white_list_is_empty d.wl <;> simp
  have hlong : d.g_device_mode = g_device_mode_t.DELETION_MODE →
      DeviceAction.ble_gap_adv_stop ∉ new_calls d (on_long_button_press h wl_addr0 d) ∧
      new_calls d (on_long_button_press h wl_addr0 d) =
        (if white_list_is_empty d.wl = false then
            [DeviceAction.esp_sleep_enable_timer_wakeup DEEP_SLEEP_CYCLE_TIME]
          else []) ++
          [DeviceAction.led_turn_off, DeviceAction.esp_deep_sleep_start] := by
    intro hdel
    rw [long_press_in_deletion h wl_addr0 d hdel, new_calls_append]
    refine ⟨?_, rfl⟩
    cases white_list_is_empty d.wl <;> simp
  refine ⟨hmed, hlong, ?_⟩
  rcases hmode with hreg | hdel
  · rw [if_pos hreg]
    exact (hmed hreg).1
  · rw [if_neg (by rw [hdel]; decide)]
    exact (hlong hdel).1

/-- Witness of C22, amended: a long press in deletion mode with the white list of the
source holding one address. -/
theorem exit_makes_no_adv_stop_witness :
    new_calls
      { g_device_mode := g_device_mode_t.DELETION_MODE, g_ble_addr_type := 0,
        wl := (push_to_white_list { type := 1, val := [1, 2, 3, 4, 5, 6] }
          (init_white_list boot_white_list).2).2,
        trace := [DeviceAction.led_turn_on] }
      (on_long_button_press Host.little { type := 0, val := [] }
        { g_device_mode := g_device_mode_t.DELETION_MODE, g_ble_addr_type := 0,
          wl := (push_to_white_list { type := 1, val := [1, 2, 3, 4, 5, 6] }
            (init_white_list boot_white_list).2).2,
          trace := [DeviceAction.led_turn_on] }) =
      [DeviceAction.esp_sleep_enable_timer_wakeup 5000000, DeviceAction.led_turn_off,
        DeviceAction.esp_deep_sleep_start] := by
  have hspec := exit_makes_no_adv_stop Host.little { type := 0, val := [] }
    { g_device_mode := g_device_mode_t.DELETION_MODE, g_ble_addr_type := 0,
      wl := (push_to_white_list { type := 1, val := [1, 2, 3, 4, 5, 6] }
        (init_white_list boot_white_list).2).2,
      trace := [DeviceAction.led_turn_on] } (Or.inr rfl)
  rw [(hspec.2.1 rfl).2]
  decide

/-! ## The two-phase debounce: claim C23 -/

theorem reenabled_start (s : ButtonState) :
    ({ s with intr_enabled := true }.emit ButtonAction.gpio_intr_enable).reenabled s.trace :=
  ⟨rfl, [], rfl, by simp⟩

theorem reenabled_emit (base : List ButtonAction) (t : ButtonState) (a : ButtonAction)
    (ha : a ≠ ButtonAction.gpio_intr_disable) (ht : t.reenabled base) :
    (t.emit a).reenabled base := by
  obtain ⟨hen, rest, htrace, hnot⟩ := ht
  refine ⟨hen, rest ++ [a], ?_, ?_⟩
  · simp [ButtonState.emit, htrace]
  · simp [hnot, Ne.symm ha]

theorem reenabled_call (base : List ButtonAction) (t : ButtonState) (registered : Bool)
    (a : ButtonAction) (ha : a ≠ ButtonAction.gpio_intr_disable) (ht : t.reenabled base) :
    (t.call registered a).reenabled base := by
  unfold ButtonState.call
  split_ifs
  · exact reenabled_emit base t a ha ht
  · exact ht

theorem reenabled_ite (base : List ButtonAction) (c : Prop) [Decidable c] (a b : ButtonState)
    (ha : a.reenabled base) (hb : b.reenabled base) :
    (if c then a else b).reenabled base := by
  split_ifs
  · exact ha
  · exact hb

theorem reenabled_pressed (base : List ButtonAction) (t : ButtonState) (x : Int)
    (ht : t.reenabled base) : ({ t with g_button_pressed_time := x } : ButtonState).reenabled base :=
  ht

theorem reenabled_released (base : List ButtonAction) (t : ButtonState) (x : Int)
    (ht : t.reenabled base) :
    ({ t with g_button_released_time := x } : ButtonState).reenabled base :=
  ht

theorem reenabled_prev (base : List ButtonAction) (t : ButtonState) (x : Int)
    (ht : t.reenabled base) : ({ t with prev_gpio_level := x } : ButtonState).reenabled base :=
  ht

/-- Every run of the timer callback enables the interrupt first and does not disable
it afterwards. -/
theorem glitching_timer_cb_reenabled (fl : ℚ → ℚ) (new_gpio_level now : Int) (s : ButtonState) :
    (glitching_timer_cb fl new_gpio_level now s).reenabled s.trace := by
  have hstart := reenabled_start s
  unfold glitching_timer_cb
  apply reenabled_ite
  · apply reenabled_prev
    apply reenabled_ite
    · exact reenabled_pressed _ _ _ hstart
    · apply reenabled_ite
      · have h4 : (if int64_sub now s.g_button_pressed_time < 0 then
            ({ ({ s with intr_enabled := true }.emit ButtonAction.gpio_intr_enable) with
              g_button_released_time := now } : ButtonState).emit
              ButtonAction.log_measurement_error
            else
              ({ ({ s with intr_enabled := true }.emit ButtonAction.gpio_intr_enable) with
                g_button_released_time := now } : ButtonState)).reenabled s.trace := by
          apply reenabled_ite
          · exact reenabled_emit _ _ _ (by decide) (reenabled_released _ _ _ hstart)
          · exact reenabled_released _ _ _ hstart
        apply reenabled_ite
        · exact reenabled_call _ _ _ _ (by decide) (reenabled_emit _ _ _ (by decide) h4)
        · apply reenabled_ite
          · exact reenabled_call _ _ _ _ (by decide) (reenabled_emit _ _ _ (by decide) h4)
          · apply reenabled_ite
            · exact reenabled_call _ _ _ _ (by decide) (reenabled_emit _ _ _ (by decide) h4)
            · exact h4
      · exact hstart
  · exact hstart

/-- C23. The two-phase debounce never leaves the input deaf. `gpio_isr_handler`
disables the button interrupt and starts the one-shot timer for 10,000
microseconds. Every run of `glitching_timer_cb`, for every sampled level, every
previous level (changed or not), every time stamp and every rounding, leaves the
interrupt enabled; `gpio_intr_enable` is the first call it makes, so it precedes
every log line and every press handler of that run, and the run makes no call that
disables the interrupt. Hence after an edge followed by its settle callback the
interrupt is enabled. -/
theorem debounce_reenables_interrupt (fl : ℚ → ℚ) (new_gpio_level now : Int)
    (s : ButtonState) :
    gpio_isr_handler s =
      { s with
        intr_enabled := false
        trace := s.trace ++
          [ButtonAction.gpio_intr_disable, ButtonAction.esp_timer_start_once 10000] } ∧
    (glitching_timer_cb fl new_gpio_level now s).intr_enabled = true ∧
    (∃ rest : List ButtonAction,
      (glitching_timer_cb fl new_gpio_level now s).trace =
        s.trace ++ ButtonAction.gpio_intr_enable :: rest ∧
      ButtonAction.gpio_intr_disable ∉ rest) ∧
    (gpio_isr_handler s).intr_enabled = false ∧
    (glitching_timer_cb fl new_gpio_level now (gpio_isr_handler s)).intr_enabled = true := by
  have hcb := glitching_timer_cb_reenabled fl new_gpio_level now s
  refine ⟨?_, hcb.1, hcb.2, ?_,
    (glitching_timer_cb_reenabled fl new_gpio_level now (gpio_isr_handler s)).1⟩
  · simp [gpio_isr_handler, ButtonState.emit]
  · simp [gpio_isr_handler, ButtonState.emit]

/-! ## The header reader: claim C24 -/

/-- Closed form of `get_packet_header` on a packet that is not `NULL` and has at least
two bytes, when a pointer has at least two bytes. -/
theorem get_packet_header_closed (h : Host) (sizeof_packet : Nat) (dest_header : Nat)
    (packet : List Nat) (hptr : 2 ≤ sizeof_packet) (hlen : 2 ≤ packet.length) :
    get_packet_header h sizeof_packet dest_header (some packet) =
      if wire_header packet ≠ REG_HEADER ∧ wire_header packet ≠ DEL_HEADER ∧
          wire_header packet ≠ DATA_HEADER then
        (-1, dest_header)
      else (0, wire_header packet) := by
  have hp := packet_split packet hlen
  have harr : memcpy [0, 0] packet HEADER_SIZE = [packet.getD 0 0, packet.getD 1 0] := by
    rw [hp]
    simp [memcpy, HEADER_SIZE]
  have hval := header_value_on_host h (packet.getD 0 0) (packet.getD 1 0)
  have hsize : ¬ sizeof_packet < HEADER_SIZE := by
    simp only [HEADER_SIZE]
    omega
  simp only [get_packet_header, harr, hval]
  rw [if_neg hsize]
  rfl

/-- C24. `get_packet_header` agrees with `open_packet` on the header. For every
packet of at least two bytes, passed to `open_packet` with a length between 2 and
the number of its bytes, both return the same status, which is 0 or -1; on status 0
both write the same value, that of the first two bytes, to `dest_header`; on status
-1 `dest_header` is unchanged. The result of `get_packet_header` depends on the
first two bytes only, and its test `sizeof(packet) < HEADER_SIZE` is false whenever
a pointer has at least two bytes. -/
theorem get_packet_header_agrees (h : Host) (sizeof_packet : Nat) (dest_header : Nat)
    (dest_buff : Option (List Nat)) (packet : List Nat) (packet_len : Nat)
    (hptr : 2 ≤ sizeof_packet) (hmin : 2 ≤ packet_len) (hlen : packet_len < 256)
    (hbuf : packet_len ≤ packet.length) :
    (get_packet_header h sizeof_packet dest_header (some packet)).1 =
      (open_packet h dest_header dest_buff (some packet) packet_len).ret ∧
    ((get_packet_header h sizeof_packet dest_header (some packet)).1 = 0 ∨
      (get_packet_header h sizeof_packet dest_header (some packet)).1 = -1) ∧
    ((get_packet_header h sizeof_packet dest_header (some packet)).1 = 0 →
      (get_packet_header h sizeof_packet dest_header (some packet)).2 =
        (open_packet h dest_header dest_buff (some packet) packet_len).dest_header ∧
      (get_packet_header h sizeof_packet dest_header (some packet)).2 = wire_header packet) ∧
    ((get_packet_header h sizeof_packet dest_header (some packet)).1 = -1 →
      (get_packet_header h sizeof_packet dest_header (some packet)).2 = dest_header) ∧
    get_packet_header h sizeof_packet dest_header (some packet) =
      get_packet_header h sizeof_packet dest_header (some (packet.take 2)) ∧
    ¬ sizeof_packet < HEADER_SIZE := by
  have hget := get_packet_header_closed h sizeof_packet dest_header packet hptr (by omega)
  have hget2 := get_packet_header_closed h sizeof_packet dest_header (packet.take 2) hptr
    (by simp; omega)
  have hw : wire_header (packet.take 2) = wire_header packet := by
    have hp := packet_split packet (by omega)
    rw [hp]
    simp [wire_header]
  have hopen := open_packet_closed h dest_header dest_buff packet packet_len hlen hbuf
  have hnot : ¬ packet_len < 2 := by omega
  have hsame : get_packet_header h sizeof_packet dest_header (some packet) =
      get_packet_header h sizeof_packet dest_header (some (packet.take 2)) := by
    rw [hget, hget2, hw]
  have hsize : ¬ sizeof_packet < HEADER_SIZE := by
    simp only [HEADER_SIZE]
    omega
  refine ⟨?_, ?_, ?_, ?_, hsame, hsize⟩
  · rw [hget, hopen]
    simp only [hnot, false_or]
    split_ifs <;> rfl
  · rw [hget]
    split_ifs
    · right; rfl
    · left; rfl
  · rw [hget, hopen]
    simp only [hnot, false_or]
    intro hzero
    split_ifs at hzero ⊢
    · simp at hzero
    · exact ⟨rfl, rfl⟩
  · rw [hget]
    intro hfail
    split_ifs at hfail ⊢
    rfl

/-- Witness of C24: a three-byte Data frame on a target with four-byte pointers. -/
theorem get_packet_header_agrees_witness :
    (get_packet_header Host.little 4 0 (some [0x00, 0x03, 0x7F])).1 =
      (open_packet Host.little 0 none (some [0x00, 0x03, 0x7F]) 3).ret ∧
    (get_packet_header Host.little 4 0 (some [0x00, 0x03, 0x7F])).2 = DATA_HEADER := by
  have hspec := get_packet_header_agrees Host.little 4 0 none [0x00, 0x03, 0x7F] 3
    (by decide) (by decide) (by decide) (by decide)
  refine ⟨hspec.1, ?_⟩
  rw [(hspec.2.2.1 (by decide)).2]
  decide

/-! ## The address printer: claim C25 -/

/-- C25, behaviour of the code. For every address the sixth `sprintf` of
`get_mac_str` stores its terminating NUL at offset 18, which is `MAC_STR_SIZE`: one
byte behind the last element (index 17) of the 18-byte array; no store goes further.
For the address `01:02:03:04:05:06` and an array filled with `0xFF` that is followed
by the byte `0xAA`, the array receives the text `06:05:04:03:02:01` with its NUL and
the byte behind the array becomes 0. -/
theorem get_mac_str_writes_past_buffer (addr : List Nat) :
    MAC_STR_SIZE = 18 ∧
    (MAC_STR_SIZE, 0) ∈ get_mac_str_writes addr ∧
    (∀ w, w ∈ get_mac_str_writes addr → w.1 ≤ MAC_STR_SIZE) ∧
    get_mac_str [1, 2, 3, 4, 5, 6] (List.replicate 18 0xFF ++ [0xAA]) =
      [48, 54, 58, 48, 53, 58, 48, 52, 58, 48, 51, 58, 48, 50, 58, 48, 49, 0, 0] := by
  refine ⟨rfl, ?_, ?_, by decide⟩
  · simp [get_mac_str_writes, sprintf_writes, MAC_STR_SIZE, List.range_succ]
  · intro w hw
    simp only [get_mac_str_writes, sprintf_writes, MAC_STR_SIZE, List.range_succ,
      List.range_zero, List.nil_append, List.foldl_cons, List.foldl_nil, List.foldl_append,
      List.mem_append, List.mem_cons, List.mem_singleton, List.not_mem_nil, or_false] at hw
    rcases hw with hw | hw
    · repeat' rcases hw with hw | hw
      all_goals simp [MAC_STR_SIZE]
    · subst hw
      simp [MAC_STR_SIZE]

end TempSensor
